import Mathlib

/-!
Verification of the terminal engine of the MCP terminal bridge.

The Go source is shallowly embedded: the screen grid `[][]Cell` is modelled
as a list of row pointers (`rows`) into a `heap` of row contents, so that the
Go slice-header copies performed by `ScrollUp`, `InsertLines`, `DeleteLines`
(`sb.cells[i] = sb.cells[j]`) are modelled faithfully, aliasing included.
Machine integers (`int`) are modelled as `Int`; byte strings as `List Nat`;
`uint8(x)` conversions as `% 256`.
-/

/-- Color from buffer source: R, G, B uint8 plus a Default flag. -/
structure Color where
  r : Nat
  g : Nat
  b : Nat
  isDefault : Bool
deriving DecidableEq, Repr

/-- Attributes from buffer source: six boolean rendition flags. -/
structure Attributes where
  bold : Bool := false
  italic : Bool := false
  underline : Bool := false
  blink : Bool := false
  reverse : Bool := false
  hidden : Bool := false
deriving DecidableEq, Repr

/-- Cell from buffer source: a rune with its graphic rendition. -/
structure Cell where
  rune : Char
  foreground : Color
  background : Color
  attributes : Attributes
deriving DecidableEq, Repr

/-- Color{Default: true} -/
def defaultColor : Color := { r := 0, g := 0, b := 0, isDefault := true }

/-- Attributes{} -/
def noAttrs : Attributes := {}

/-- Cell{Rune: space, Foreground/Background default}: the blank cell used
by NewScreenBuffer, Clear, ClearLine, ScrollUp, ScrollDown and the
insert/delete operations. -/
def blankCell : Cell :=
  { rune := ' ', foreground := defaultColor, background := defaultColor,
    attributes := noAttrs }

/-- A freshly allocated row of blank cells (make([]Cell, width) + fill). -/
def blankRow (w : Nat) : List Cell := List.replicate w blankCell

/-- ScreenBuffer from the terminal buffer source. `rows` holds indices into
`heap`; `heap.get i` is the backing array of a row, so two entries of `rows`
holding the same index model two Go slice headers sharing a backing array.
The parser fields live in `Term` below (Go links them by pointer). -/
structure ScreenBuffer where
  rows : List Nat
  heap : List (List Cell)
  width : Nat
  height : Nat
  cursorX : Int
  cursorY : Int
  scrollback : List (List Cell)
  maxScrollback : Nat
  scrollbackStart : Nat
  rawData : List Nat
  maxRawDataSize : Nat
deriving DecidableEq, Repr

/-- Pointer (heap index) of screen row y. -/
def ScreenBuffer.rowPtr (sb : ScreenBuffer) (y : Nat) : Nat :=
  sb.rows.getD y 0

/-- Contents of screen row y, read through its pointer. -/
def ScreenBuffer.rowVal (sb : ScreenBuffer) (y : Nat) : List Cell :=
  sb.heap.getD (sb.rowPtr y) []

/-- Read the cell at column x of row y (sb.cells[y][x]). -/
def ScreenBuffer.readCell (sb : ScreenBuffer) (y x : Nat) : Cell :=
  (sb.rowVal y).getD x blankCell

/-- Overwrite the backing array of row y (an in-place write through the
slice header, visible to every alias of that row). -/
def ScreenBuffer.writeRow (sb : ScreenBuffer) (y : Nat) (row : List Cell) :
    ScreenBuffer :=
  { sb with heap := sb.heap.set (sb.rowPtr y) row }

/-- NewScreenBuffer(width, height): fresh grid of blank rows, cursor at the
origin, 1000-line scrollback, 1 MiB raw-data cap. -/
def NewScreenBuffer (width height : Nat) : ScreenBuffer :=
  { rows := List.range height
    heap := List.replicate height (blankRow width)
    width := width
    height := height
    cursorX := 0
    cursorY := 0
    scrollback := List.replicate 1000 []
    maxScrollback := 1000
    scrollbackStart := 0
    rawData := []
    maxRawDataSize := 1024 * 1024 }

/-- storeRawData: append, then if the buffer exceeds maxRawDataSize drop the
oldest quarter of the cap (trimPoint = maxRawDataSize / 4). -/
def ScreenBuffer.storeRawData (sb : ScreenBuffer) (data : List Nat) :
    ScreenBuffer :=
  let raw := sb.rawData ++ data
  if sb.maxRawDataSize < raw.length then
    { sb with rawData := raw.drop (sb.maxRawDataSize / 4) }
  else
    { sb with rawData := raw }

/-- ClearRawData: empty the raw log. -/
def ScreenBuffer.ClearRawData (sb : ScreenBuffer) : ScreenBuffer :=
  { sb with rawData := [] }

/-- SetCell(x, y, r, fg, bg, attrs): no-op when out of bounds, otherwise an
in-place element write in row y's backing array. -/
def ScreenBuffer.SetCell (sb : ScreenBuffer) (x y : Int) (r : Char)
    (fg bg : Color) (attrs : Attributes) : ScreenBuffer :=
  if x < 0 ∨ (sb.width : Int) ≤ x ∨ y < 0 ∨ (sb.height : Int) ≤ y then sb
  else
    sb.writeRow y.toNat ((sb.rowVal y.toNat).set x.toNat
      { rune := r, foreground := fg, background := bg, attributes := attrs })

/-- Clamp one coordinate exactly as MoveCursor does: first the lower bound,
then the upper bound. -/
def clampCoord (v : Int) (n : Nat) : Int :=
  let a := if v < 0 then 0 else v
  if (n : Int) ≤ a then (n : Int) - 1 else a

/-- MoveCursor(x, y): store then clamp both coordinates to the grid. -/
def ScreenBuffer.MoveCursor (sb : ScreenBuffer) (x y : Int) : ScreenBuffer :=
  { sb with cursorX := clampCoord x sb.width, cursorY := clampCoord y sb.height }

/-- Blank the first w entries of a row in place (the `for x := 0; x < width`
store loop of Clear and ClearLine). -/
def blankify (w : Nat) (row : List Cell) : List Cell :=
  row.mapIdx fun i c => if i < w then blankCell else c

/-- ClearLine(y): no-op when out of range, else blank row y in place. -/
def ScreenBuffer.ClearLine (sb : ScreenBuffer) (y : Int) : ScreenBuffer :=
  if y < 0 ∨ (sb.height : Int) ≤ y then sb
  else sb.writeRow y.toNat (blankify sb.width (sb.rowVal y.toNat))

/-- Clear(): blank every row in place, reset the cursor to (0,0) and clear
the raw-data log. The scrollback fields are not touched. -/
def ScreenBuffer.Clear (sb : ScreenBuffer) : ScreenBuffer :=
  let sb := (List.range sb.height).foldl
    (fun b y => b.writeRow y (blankify b.width (b.rowVal y))) sb
  ({ sb with cursorX := 0, cursorY := 0 }).ClearRawData

/-- addToScrollback(line): store a copy of the line in the circular buffer
at index scrollbackStart % maxScrollback. -/
def ScreenBuffer.addToScrollback (sb : ScreenBuffer) (line : List Cell) :
    ScreenBuffer :=
  if sb.maxScrollback = 0 then sb
  else
    { sb with
      scrollback := sb.scrollback.set (sb.scrollbackStart % sb.maxScrollback) line
      scrollbackStart := sb.scrollbackStart + 1 }

/-- ScrollUp(): push a copy of row 0 into scrollback, shift the row pointers
up by one, and allocate a fresh blank bottom row. -/
def ScreenBuffer.ScrollUp (sb : ScreenBuffer) : ScreenBuffer :=
  let sb1 := sb.addToScrollback (sb.rowVal 0)
  { sb1 with
    rows := sb1.rows.drop 1 ++ [sb1.heap.length]
    heap := sb1.heap ++ [blankRow sb1.width] }

/-- ScrollDown(): shift the row pointers down by one and allocate a fresh
blank top row; the scrollback is not populated. -/
def ScreenBuffer.ScrollDown (sb : ScreenBuffer) : ScreenBuffer :=
  { sb with
    rows := sb.heap.length :: sb.rows.take (sb.height - 1)
    heap := sb.heap ++ [blankRow sb.width] }

/-- GetCursorPosition(). -/
def ScreenBuffer.GetCursorPosition (sb : ScreenBuffer) : Int × Int :=
  (sb.cursorX, sb.cursorY)

/-- GetSize(). -/
def ScreenBuffer.GetSize (sb : ScreenBuffer) : Nat × Nat :=
  (sb.width, sb.height)

/-- Resize(width, height): allocate a completely fresh grid, copy the
top-left min×min region by value, and clamp the cursor from above. -/
def ScreenBuffer.Resize (sb : ScreenBuffer) (width height : Nat) :
    ScreenBuffer :=
  let minHeight := min height sb.height
  let minWidth := min width sb.width
  let newHeap := (List.range height).map fun y =>
    (List.range width).map fun x =>
      if y < minHeight ∧ x < minWidth then sb.readCell y x else blankCell
  { sb with
    rows := List.range height
    heap := newHeap
    width := width
    height := height
    cursorX := if (width : Int) ≤ sb.cursorX then (width : Int) - 1 else sb.cursorX
    cursorY := if (height : Int) ≤ sb.cursorY then (height : Int) - 1 else sb.cursorY }

/-- InsertLines(y, n): guard, clamp n so y+n ≤ height, copy the row pointers
downward, then blank rows y..y+n-1 in place (each blank write goes through
the possibly-aliased pointer, as in the source). -/
def ScreenBuffer.InsertLines (sb : ScreenBuffer) (y n : Int) : ScreenBuffer :=
  if y < 0 ∨ (sb.height : Int) ≤ y ∨ n ≤ 0 then sb
  else
    let n := if (sb.height : Int) < y + n then (sb.height : Int) - y else n
    let yn := y.toNat
    let nn := n.toNat
    let sb1 := { sb with
      rows := sb.rows.mapIdx fun i p =>
        if yn + nn ≤ i then sb.rows.getD (i - nn) 0 else p }
    (List.range nn).foldl
      (fun b k => b.writeRow (yn + k) (blankify b.width (b.rowVal (yn + k)))) sb1

/-- DeleteLines(y, n): guard, clamp n so y+n ≤ height, copy the row pointers
upward, then blank the bottom n rows in place (through possibly-aliased
pointers, as in the source). -/
def ScreenBuffer.DeleteLines (sb : ScreenBuffer) (y n : Int) : ScreenBuffer :=
  if y < 0 ∨ (sb.height : Int) ≤ y ∨ n ≤ 0 then sb
  else
    let n := if (sb.height : Int) < y + n then (sb.height : Int) - y else n
    let yn := y.toNat
    let nn := n.toNat
    let sb1 := { sb with
      rows := sb.rows.mapIdx fun i p =>
        if yn ≤ i ∧ i < sb.height - nn then sb.rows.getD (i + nn) 0 else p }
    (List.range nn).foldl
      (fun b k => b.writeRow (sb.height - nn + k)
        (blankify b.width (b.rowVal (sb.height - nn + k)))) sb1

/-- InsertChars(x, y, n): guard, clamp n so x+n ≤ width, shift the cells of
row y rightward and blank the inserted span; a value update of one row. -/
def ScreenBuffer.InsertChars (sb : ScreenBuffer) (x y n : Int) : ScreenBuffer :=
  if x < 0 ∨ (sb.width : Int) ≤ x ∨ y < 0 ∨ (sb.height : Int) ≤ y ∨ n ≤ 0 then sb
  else
    let n := if (sb.width : Int) < x + n then (sb.width : Int) - x else n
    let xn := x.toNat
    let nn := n.toNat
    let row := sb.rowVal y.toNat
    let newRow := row.mapIdx fun i c =>
      if xn + nn ≤ i ∧ i < sb.width then row.getD (i - nn) blankCell
      else if xn ≤ i ∧ i < xn + nn then blankCell
      else c
    sb.writeRow y.toNat newRow

/-- DeleteChars(x, y, n): guard, clamp n so x+n ≤ width, shift the cells of
row y leftward and blank the vacated right end. -/
def ScreenBuffer.DeleteChars (sb : ScreenBuffer) (x y n : Int) : ScreenBuffer :=
  if x < 0 ∨ (sb.width : Int) ≤ x ∨ y < 0 ∨ (sb.height : Int) ≤ y ∨ n ≤ 0 then sb
  else
    let n := if (sb.width : Int) < x + n then (sb.width : Int) - x else n
    let xn := x.toNat
    let nn := n.toNat
    let row := sb.rowVal y.toNat
    let newRow := row.mapIdx fun i c =>
      if xn ≤ i ∧ i < sb.width - nn then row.getD (i + nn) blankCell
      else if sb.width - nn ≤ i ∧ i < sb.width then blankCell
      else c
    sb.writeRow y.toNat newRow

/-- GetScrollback(): the logical-order contents of the circular buffer. -/
def ScreenBuffer.GetScrollback (sb : ScreenBuffer) : List (List Cell) :=
  if sb.scrollbackStart = 0 then []
  else
    let lineCount := min sb.scrollbackStart sb.maxScrollback
    (List.range lineCount).map fun i =>
      sb.scrollback.getD ((sb.scrollbackStart - lineCount + i) % sb.maxScrollback) []

/-! ### The VT/ANSI parser (later variant of the parser source) -/

/-- Parser states (stateNormal .. stateCharset). -/
inductive PState where
  | normal
  | escape
  | csi
  | osc
  | dcs
  | charset
deriving DecidableEq, Repr

/-- cursorState: the saved cursor position and graphic rendition. -/
structure CursorSave where
  x : Int
  y : Int
  fg : Color
  bg : Color
  attrs : Attributes
deriving DecidableEq, Repr

/-- ANSIParser together with its bound ScreenBuffer (Go links the two by
mutual pointers; here they form one record). -/
structure Term where
  buf : ScreenBuffer
  pstate : PState
  escapeBuffer : List Nat
  currentFG : Color
  currentBG : Color
  currentAttrs : Attributes
  savedCursor : Option CursorSave
deriving DecidableEq, Repr

/-- NewANSIParser on a fresh NewScreenBuffer(width, height). -/
def newTerm (width height : Nat) : Term :=
  { buf := NewScreenBuffer width height
    pstate := .normal
    escapeBuffer := []
    currentFG := defaultColor
    currentBG := defaultColor
    currentAttrs := noAttrs
    savedCursor := none }

/-- Apply a buffer operation under the parser. -/
def Term.withBuf (t : Term) (f : ScreenBuffer → ScreenBuffer) : Term :=
  { t with buf := f t.buf }

/-- The integers lo, lo+1, …, hi-1 (the CSI erase loops). -/
def intRange (lo hi : Int) : List Int :=
  (List.range (hi - lo).toNat).map fun i => lo + i

/-- A nonempty all-digit byte string. -/
def decDigits (l : List Nat) : Bool :=
  !l.isEmpty && l.all fun d => 48 ≤ d && d ≤ 57

/-- Value of a digit string. -/
def digitsToNat (l : List Nat) : Nat :=
  l.foldl (fun a d => a * 10 + (d - 48)) 0

/-- Largest int64, the range strconv.Atoi accepts on 64-bit builds. -/
def int64Max : Nat := 9223372036854775807

/-- strconv.Atoi: optional sign, decimal digits, int64 range check;
any other input is an error (`none`). -/
def goAtoi (part : List Nat) : Option Int :=
  match part with
  | 43 :: rest =>
    if decDigits rest && decide (digitsToNat rest ≤ int64Max) then
      some (digitsToNat rest) else none
  | 45 :: rest =>
    if decDigits rest && decide (digitsToNat rest ≤ int64Max + 1) then
      some (-(digitsToNat rest : Int)) else none
  | _ =>
    if decDigits part && decide (digitsToNat part ≤ int64Max) then
      some (digitsToNat part) else none

/-- parseCSIParams: split the intermediate buffer on `;`; empty parts give
0 and unparsable parts are skipped. -/
def parseCSIParams (buf : List Nat) : List Int :=
  if buf = [] then []
  else (buf.splitOn 59).filterMap fun part =>
    if part = [] then some (0 : Int) else goAtoi part

/-- ansiToColor: the 8-color basic palette. -/
def ansiToColor (code : Int) : Color :=
  let colors : List Color :=
    [⟨0, 0, 0, false⟩, ⟨170, 0, 0, false⟩, ⟨0, 170, 0, false⟩,
     ⟨170, 85, 0, false⟩, ⟨0, 0, 170, false⟩, ⟨170, 0, 170, false⟩,
     ⟨0, 170, 170, false⟩, ⟨170, 170, 170, false⟩]
  if 0 ≤ code ∧ code < 8 then colors.getD code.toNat defaultColor
  else defaultColor

/-- ansiBrightToColor: the bright palette (256-color indices 8-15). -/
def ansiBrightToColor (code : Int) : Color :=
  let colors : List Color :=
    [⟨85, 85, 85, false⟩, ⟨255, 85, 85, false⟩, ⟨85, 255, 85, false⟩,
     ⟨255, 255, 85, false⟩, ⟨85, 85, 255, false⟩, ⟨255, 85, 255, false⟩,
     ⟨85, 255, 255, false⟩, ⟨255, 255, 255, false⟩]
  if 0 ≤ code ∧ code < 8 then colors.getD code.toNat defaultColor
  else defaultColor

/-- uint8 conversion. -/
def toU8 (n : Nat) : Nat := n % 256

/-- ansi256ToColor, later variant: basic colors below 8, bright colors at
8-15, the 6x6x6 cube at 16-231, the grayscale ramp at 232-255. -/
def ansi256ToColor (code : Int) : Color :=
  if code < 16 then
    if code < 8 then ansiToColor code
    else ansiBrightToColor (code - 8)
  else if code < 232 then
    let c := (code - 16).toNat
    { r := toU8 (c / 36 * 51), g := toU8 (c / 6 % 6 * 51),
      b := toU8 (c % 6 * 51), isDefault := false }
  else
    let gray := toU8 (8 + (code - 232).toNat * 10)
    { r := gray, g := gray, b := gray, isDefault := false }

/-- The graphic state the SGR handler works on: the parser's currentFG,
currentBG and currentAttrs fields. -/
structure GState where
  fg : Color
  bg : Color
  attrs : Attributes
deriving DecidableEq, Repr

/-- Effect of one SGR parameter that consumes nothing after itself
(the non-extended cases of the Go switch; unrecognized values, and 38/48
whose extended form does not apply, change nothing). -/
def sgrStep (g : GState) (p : Int) : GState :=
  if p = 0 then { fg := defaultColor, bg := defaultColor, attrs := noAttrs }
  else if p = 1 then { g with attrs := { g.attrs with bold := true } }
  else if p = 3 then { g with attrs := { g.attrs with italic := true } }
  else if p = 4 then { g with attrs := { g.attrs with underline := true } }
  else if p = 5 then { g with attrs := { g.attrs with blink := true } }
  else if p = 7 then { g with attrs := { g.attrs with reverse := true } }
  else if p = 8 then { g with attrs := { g.attrs with hidden := true } }
  else if p = 22 then { g with attrs := { g.attrs with bold := false } }
  else if p = 23 then { g with attrs := { g.attrs with italic := false } }
  else if p = 24 then { g with attrs := { g.attrs with underline := false } }
  else if p = 25 then { g with attrs := { g.attrs with blink := false } }
  else if p = 27 then { g with attrs := { g.attrs with reverse := false } }
  else if p = 28 then { g with attrs := { g.attrs with hidden := false } }
  else if 30 ≤ p ∧ p ≤ 37 then { g with fg := ansiToColor (p - 30) }
  else if p = 39 then { g with fg := defaultColor }
  else if 40 ≤ p ∧ p ≤ 47 then { g with bg := ansiToColor (p - 40) }
  else if p = 49 then { g with bg := defaultColor }
  else g

/-- The parameter loop of handleSGR. 38 (or 48) extends only when at least
two parameters follow and the first of them is 5; it then consumes both
(the Go loop advances i by 2), otherwise the loop simply moves on. -/
def sgrLoop : GState → List Int → GState
  | g, [] => g
  | g, p :: q :: c :: rest2 =>
    if p = 38 ∧ q = 5 then sgrLoop { g with fg := ansi256ToColor c } rest2
    else if p = 48 ∧ q = 5 then sgrLoop { g with bg := ansi256ToColor c } rest2
    else sgrLoop (sgrStep g p) (q :: c :: rest2)
  | g, [p] => sgrLoop (sgrStep g p) []
  | g, [p, q] => sgrLoop (sgrStep g p) [q]

/-- handleSGR: an empty parameter list acts as a single 0. The handler
touches only the graphic-state fields of the parser. -/
def Term.handleSGR (t : Term) (params : List Int) : Term :=
  let g0 : GState := ⟨t.currentFG, t.currentBG, t.currentAttrs⟩
  let g := if params = [] then sgrLoop g0 [(0 : Int)] else sgrLoop g0 params
  { t with currentFG := g.fg, currentBG := g.bg, currentAttrs := g.attrs }

/-- saveCursor (ESC 7 / CSI s). -/
def Term.saveCursor (t : Term) : Term :=
  let s : CursorSave :=
    { x := t.buf.cursorX, y := t.buf.cursorY, fg := t.currentFG,
      bg := t.currentBG, attrs := t.currentAttrs }
  { t with savedCursor := some s }

/-- restoreCursor (ESC 8 / CSI u): no-op when nothing is saved. -/
def Term.restoreCursor (t : Term) : Term :=
  match t.savedCursor with
  | none => t
  | some s =>
    { t with buf := t.buf.MoveCursor s.x s.y, currentFG := s.fg,
             currentBG := s.bg, currentAttrs := s.attrs }

/-- Write a printable character at the cursor with the given rendition and
advance, wrapping at the right margin and scrolling at the bottom (the
printable branch of handleNormal). -/
def putChar (sb : ScreenBuffer) (ch : Char) (fg bg : Color)
    (attrs : Attributes) : ScreenBuffer :=
  let sb := sb.SetCell sb.cursorX sb.cursorY ch fg bg attrs
  let sb := { sb with cursorX := sb.cursorX + 1 }
  if (sb.width : Int) ≤ sb.cursorX then
    let sb := { sb with cursorX := 0, cursorY := sb.cursorY + 1 }
    if (sb.height : Int) ≤ sb.cursorY then
      { sb.ScrollUp with cursorY := (sb.height : Int) - 1 }
    else sb
  else sb

/-- Line feed: increment the row; at the bottom, scroll up and stay on the
last row. -/
def bufLineFeed (sb : ScreenBuffer) : ScreenBuffer :=
  let sb := { sb with cursorY := sb.cursorY + 1 }
  if (sb.height : Int) ≤ sb.cursorY then
    { sb.ScrollUp with cursorY := (sb.height : Int) - 1 }
  else sb

/-- handleNormal: ground-state dispatch. -/
def Term.handleNormal (t : Term) (b : Nat) : Term :=
  if b = 0x1B then { t with pstate := .escape, escapeBuffer := [] }
  else if b = 13 then t.withBuf fun sb => sb.MoveCursor 0 sb.cursorY
  else if b = 10 then t.withBuf bufLineFeed
  else if b = 9 then
    t.withBuf fun sb =>
      let newX := (sb.cursorX.tdiv 8 + 1) * 8
      let newX := if (sb.width : Int) ≤ newX then (sb.width : Int) - 1 else newX
      sb.MoveCursor newX sb.cursorY
  else if b = 8 then
    t.withBuf fun sb =>
      if 0 < sb.cursorX then sb.MoveCursor (sb.cursorX - 1) sb.cursorY else sb
  else if 0x20 ≤ b ∧ b < 0x7F then
    t.withBuf fun sb =>
      putChar sb (Char.ofNat b) t.currentFG t.currentBG t.currentAttrs
  else t

/-- handleEscape: dispatch on the byte after ESC. ESC c clears the screen
and resets the graphic state (the saved-cursor slot is left as is). -/
def Term.handleEscape (t : Term) (b : Nat) : Term :=
  if b = 91 then { t with pstate := .csi, escapeBuffer := [] }
  else if b = 93 then { t with pstate := .osc, escapeBuffer := [] }
  else if b = 80 then { t with pstate := .dcs, escapeBuffer := [] }
  else if b = 40 ∨ b = 41 ∨ b = 42 ∨ b = 43 then
    { t with pstate := .charset, escapeBuffer := t.escapeBuffer ++ [b] }
  else if b = 99 then
    { t with buf := t.buf.Clear, currentFG := defaultColor,
             currentBG := defaultColor, currentAttrs := noAttrs,
             pstate := .normal }
  else if b = 68 then { t.withBuf bufLineFeed with pstate := .normal }
  else if b = 77 then
    { t.withBuf (fun sb =>
        if 0 < sb.cursorY then { sb with cursorY := sb.cursorY - 1 }
        else sb.ScrollDown) with pstate := .normal }
  else if b = 69 then
    { t.withBuf (fun sb => bufLineFeed { sb with cursorX := 0 }) with
      pstate := .normal }
  else if b = 55 then { t.saveCursor with pstate := .normal }
  else if b = 56 then { t.restoreCursor with pstate := .normal }
  else { t with pstate := .normal }

/-- First CSI parameter when positive, else the default 1. -/
def csiCount (params : List Int) : Int :=
  match params.head? with
  | some p => if 0 < p then p else 1
  | none => 1

/-- Erase from the cursor to the end of the line (CSI J 0 / K 0). -/
def eraseRight (sb : ScreenBuffer) (fg bg : Color) : ScreenBuffer :=
  (intRange sb.cursorX sb.width).foldl
    (fun b x => b.SetCell x b.cursorY ' ' fg bg noAttrs) sb

/-- Erase from the start of the line through the cursor (CSI J 1 / K 1). -/
def eraseLeft (sb : ScreenBuffer) (fg bg : Color) : ScreenBuffer :=
  (intRange 0 (sb.cursorX + 1)).foldl
    (fun b x => b.SetCell x b.cursorY ' ' fg bg noAttrs) sb

/-- handleCSI: accumulate parameter bytes 0x20..0x3F; on any other byte
execute the command and return to Ground. -/
def Term.handleCSI (t : Term) (b : Nat) : Term :=
  if 0x20 ≤ b ∧ b ≤ 0x3F then
    { t with escapeBuffer := t.escapeBuffer ++ [b] }
  else
    let params := parseCSIParams t.escapeBuffer
    let t :=
      if b = 65 then -- A: cursor up
        t.withBuf fun sb => sb.MoveCursor sb.cursorX (sb.cursorY - csiCount params)
      else if b = 66 then -- B: cursor down
        t.withBuf fun sb => sb.MoveCursor sb.cursorX (sb.cursorY + csiCount params)
      else if b = 67 then -- C: cursor forward
        t.withBuf fun sb => sb.MoveCursor (sb.cursorX + csiCount params) sb.cursorY
      else if b = 68 then -- D: cursor backward
        t.withBuf fun sb => sb.MoveCursor (sb.cursorX - csiCount params) sb.cursorY
      else if b = 72 ∨ b = 102 then -- H, f: cursor position
        let row := params.headD 1
        let col := if 1 < params.length then params.getD 1 0 else 1
        t.withBuf fun sb => sb.MoveCursor (col - 1) (row - 1)
      else if b = 74 then -- J: erase display
        let mode := params.headD 0
        if mode = 0 then
          t.withBuf fun sb =>
            (intRange (sb.cursorY + 1) sb.height).foldl
              (fun bb y => bb.ClearLine y) (eraseRight sb t.currentFG t.currentBG)
        else if mode = 1 then
          t.withBuf fun sb =>
            eraseLeft ((intRange 0 sb.cursorY).foldl (fun bb y => bb.ClearLine y) sb)
              t.currentFG t.currentBG
        else if mode = 2 then t.withBuf ScreenBuffer.Clear
        else t
      else if b = 75 then -- K: erase line
        let mode := params.headD 0
        if mode = 0 then t.withBuf fun sb => eraseRight sb t.currentFG t.currentBG
        else if mode = 1 then t.withBuf fun sb => eraseLeft sb t.currentFG t.currentBG
        else if mode = 2 then t.withBuf fun sb => sb.ClearLine sb.cursorY
        else t
      else if b = 109 then t.handleSGR params -- m: SGR
      else if b = 115 then t.saveCursor -- s
      else if b = 117 then t.restoreCursor -- u
      else if b = 76 then -- L: insert lines
        t.withBuf fun sb => sb.InsertLines sb.cursorY (csiCount params)
      else if b = 77 then -- M: delete lines
        t.withBuf fun sb => sb.DeleteLines sb.cursorY (csiCount params)
      else if b = 80 then -- P: delete characters
        t.withBuf fun sb => sb.DeleteChars sb.cursorX sb.cursorY (csiCount params)
      else if b = 64 then -- @: insert characters
        t.withBuf fun sb => sb.InsertChars sb.cursorX sb.cursorY (csiCount params)
      else if b = 88 then -- X: erase characters
        let n := csiCount params
        t.withBuf fun sb =>
          (intRange 0 (min n ((sb.width : Int) - sb.cursorX))).foldl
            (fun bb i => bb.SetCell (bb.cursorX + i) bb.cursorY ' '
              t.currentFG t.currentBG noAttrs) sb
      else if b = 71 then -- G: cursor horizontal absolute
        t.withBuf fun sb => sb.MoveCursor (params.headD 1 - 1) sb.cursorY
      else if b = 100 then -- d: vertical position absolute
        t.withBuf fun sb => sb.MoveCursor sb.cursorX (params.headD 1 - 1)
      else t -- r, h, l and unknown terminators: acknowledged, no effect
    { t with pstate := .normal }

/-- handleOSC: absorb until BEL or ST (ESC backslash); the payload has no
visible effect. -/
def Term.handleOSC (t : Term) (b : Nat) : Term :=
  if b = 7 then { t with pstate := .normal }
  else if b = 0x1B then { t with escapeBuffer := t.escapeBuffer ++ [b] }
  else if b = 92 ∧ t.escapeBuffer.getLast? = some 0x1B then
    { t with pstate := .normal }
  else { t with escapeBuffer := t.escapeBuffer ++ [b] }

/-- handleDCS: absorb until ST; payload discarded. -/
def Term.handleDCS (t : Term) (b : Nat) : Term :=
  if b = 0x1B then { t with escapeBuffer := t.escapeBuffer ++ [b] }
  else if b = 92 ∧ t.escapeBuffer.getLast? = some 0x1B then
    { t with pstate := .normal }
  else { t with escapeBuffer := t.escapeBuffer ++ [b] }

/-- handleCharset: the selection byte is absorbed and discarded. -/
def Term.handleCharset (t : Term) (_b : Nat) : Term :=
  { t with pstate := .normal }

/-- One step of Parse: dispatch on the current state. -/
def Term.parseByte (t : Term) (b : Nat) : Term :=
  match t.pstate with
  | .normal => t.handleNormal b
  | .escape => t.handleEscape b
  | .csi => t.handleCSI b
  | .osc => t.handleOSC b
  | .dcs => t.handleDCS b
  | .charset => t.handleCharset b

/-- Parse(data): feed the bytes one at a time. -/
def Term.Parse (t : Term) (data : List Nat) : Term :=
  data.foldl Term.parseByte t

/-- ScreenBuffer.Write(data): store the raw bytes, then parse them. -/
def Term.Write (t : Term) (data : List Nat) : Term :=
  Term.Parse { t with buf := t.buf.storeRawData data } data

/-! ### Render formats and the Session wrapper -/

/-- strings.TrimRight(s, " \n"): drop trailing spaces and line feeds. -/
def trimRightSpaceNL (s : List Char) : List Char :=
  (s.reverse.dropWhile fun c => c == ' ' || c == '\n').reverse

/-- The characters of row y in order. -/
def ScreenBuffer.rowRunes (sb : ScreenBuffer) (y : Nat) : List Char :=
  (List.range sb.width).map fun x => (sb.readCell y x).rune

/-- renderPlain: rows joined by LF with trailing spaces and LFs trimmed
from the final string. -/
def ScreenBuffer.renderPlain (sb : ScreenBuffer) : String :=
  let chars := List.intercalate ['\n'] ((List.range sb.height).map sb.rowRunes)
  String.mk (trimRightSpaceNL chars)

/-- renderANSI: the debug view with a cursor marker and dotted spaces. -/
def ScreenBuffer.renderANSI (sb : ScreenBuffer) : String :=
  let line := fun (y : Nat) =>
    (List.range sb.width).map fun (x : Nat) =>
      if (x : Int) = sb.cursorX ∧ (y : Int) = sb.cursorY then '▮'
      else if (sb.readCell y x).rune = ' ' then '·'
      else (sb.readCell y x).rune
  String.mk (List.intercalate ['\n'] ((List.range sb.height).map line))

/-- buildSGRSequence: the escape sequence selecting the given rendition. -/
def buildSGRSequence (fg bg : Color) (attrs : Attributes) : String :=
  if fg.isDefault ∧ bg.isDefault ∧ attrs = noAttrs then "\x1b[0m"
  else
    let params : List String :=
      (if attrs.bold then ["1"] else []) ++
      (if attrs.italic then ["3"] else []) ++
      (if attrs.underline then ["4"] else []) ++
      (if attrs.blink then ["5"] else []) ++
      (if attrs.reverse then ["7"] else []) ++
      (if attrs.hidden then ["8"] else []) ++
      (if !fg.isDefault then
        ["38;2;" ++ toString fg.r ++ ";" ++ toString fg.g ++ ";" ++ toString fg.b]
       else []) ++
      (if !bg.isDefault then
        ["48;2;" ++ toString bg.r ++ ";" ++ toString bg.g ++ ";" ++ toString bg.b]
       else [])
    if params = [] then ""
    else "\x1b[" ++ String.intercalate ";" params ++ "m"

/-- Running rendition state and output of renderRaw. -/
structure RawAcc where
  fg : Color
  bg : Color
  attrs : Attributes
  out : String

/-- One cell of renderRaw: emit an SGR sequence only when the rendition
changes. -/
def renderRawCell (acc : RawAcc) (cell : Cell) : RawAcc :=
  if cell.foreground ≠ acc.fg ∨ cell.background ≠ acc.bg ∨
      cell.attributes ≠ acc.attrs then
    let sgr := buildSGRSequence cell.foreground cell.background cell.attributes
    { fg := cell.foreground, bg := cell.background, attrs := cell.attributes,
      out := (if sgr = "" then acc.out else acc.out ++ sgr) ++ cell.rune.toString }
  else { acc with out := acc.out ++ cell.rune.toString }

/-- renderRaw: a reconstructed ANSI stream starting with a reset and ending
with a 1-based cursor-position sequence. -/
def ScreenBuffer.renderRaw (sb : ScreenBuffer) : String :=
  let acc := (List.range sb.height).foldl
    (fun acc y =>
      let acc := (List.range sb.width).foldl
        (fun a x => renderRawCell a (sb.readCell y x)) acc
      if y < sb.height - 1 then { acc with out := acc.out ++ "\n" } else acc)
    { fg := defaultColor, bg := defaultColor, attrs := noAttrs, out := "\x1b[0m" }
  acc.out ++ "\x1b[" ++ toString (sb.cursorY + 1) ++ ";" ++
    toString (sb.cursorX + 1) ++ "H"

/-- renderWithScrollback: every scrollback row followed by LF, then the
plain render of the current screen. -/
def ScreenBuffer.renderWithScrollback (sb : ScreenBuffer) : String :=
  let sbLines := sb.GetScrollback.map fun line =>
    String.mk (line.map Cell.rune) ++ "\n"
  String.join sbLines ++ sb.renderPlain

/-- renderPassthrough: the raw-byte log as text (Go returns string(rawData);
bytes are mapped to code points one for one here). -/
def ScreenBuffer.renderPassthrough (sb : ScreenBuffer) : String :=
  String.mk (sb.rawData.map Char.ofNat)

/-- Render(format): the five formats; anything else falls back to plain. -/
def ScreenBuffer.Render (sb : ScreenBuffer) (format : String) : String :=
  if format = "plain" then sb.renderPlain
  else if format = "raw" then sb.renderRaw
  else if format = "ansi" then sb.renderANSI
  else if format = "scrollback" then sb.renderWithScrollback
  else if format = "passthrough" then sb.renderPassthrough
  else sb.renderPlain

/-- Session lifecycle states. -/
inductive SessionState where
  | active
  | stopped
  | errored
deriving DecidableEq, Repr

/-- Session: identifier, immutable launch spec, the terminal (screen plus
parser) and the lifecycle state. The PTY channel itself is operating-system
I/O and is not part of the state the claims observe. -/
structure Session where
  id : String
  command : String
  args : List String
  term : Term
  state : SessionState
deriving Repr

/-- NewSession on the success path: a fresh 80x24 screen, state Active. -/
def NewSessionModel (id command : String) (args : List String) : Session :=
  { id := id, command := command, args := args, term := newTerm 80 24,
    state := SessionState.active }

/-- Session.GetScreen: rejects any state other than Active, otherwise
renders the buffer (Buffer.Render never returns an error). -/
def Session.GetScreen (s : Session) (format : String) : Except String String :=
  if s.state ≠ SessionState.active then Except.error "session is not active"
  else Except.ok (s.term.buf.Render format)

/-- Session.GetCursorPosition: delegates to the buffer in any state. -/
def Session.GetCursorPosition (s : Session) : Int × Int :=
  s.term.buf.GetCursorPosition

/-- Session.Restart on the success path (PTY stop, Buffer.Clear, fresh PTY
spawn succeeding): the buffer is cleared and the state becomes Active; the
identifier and launch spec are untouched. -/
def Session.Restart (s : Session) : Session :=
  { s with term := { s.term with buf := s.term.buf.Clear },
           state := SessionState.active }

/-! ### The key map -/

/-- specialKeys: the closed table of recognized symbolic names. -/
def specialKeys : List (String × String) :=
  [("Enter", "\r"), ("Tab", "\t"), ("Backspace", "\x7f"), ("Escape", "\x1b"),
   ("Space", " "), ("Delete", "\x1b[3~"),
   ("Up", "\x1b[A"), ("Down", "\x1b[B"), ("Right", "\x1b[C"), ("Left", "\x1b[D"),
   ("Ctrl+A", "\x01"), ("Ctrl+B", "\x02"), ("Ctrl+C", "\x03"), ("Ctrl+D", "\x04"),
   ("Ctrl+E", "\x05"), ("Ctrl+F", "\x06"), ("Ctrl+G", "\x07"), ("Ctrl+H", "\x08"),
   ("Ctrl+I", "\x09"), ("Ctrl+J", "\x0a"), ("Ctrl+K", "\x0b"), ("Ctrl+L", "\x0c"),
   ("Ctrl+M", "\x0d"), ("Ctrl+N", "\x0e"), ("Ctrl+O", "\x0f"), ("Ctrl+P", "\x10"),
   ("Ctrl+Q", "\x11"), ("Ctrl+R", "\x12"), ("Ctrl+S", "\x13"), ("Ctrl+T", "\x14"),
   ("Ctrl+U", "\x15"), ("Ctrl+V", "\x16"), ("Ctrl+W", "\x17"), ("Ctrl+X", "\x18"),
   ("Ctrl+Y", "\x19"), ("Ctrl+Z", "\x1a"),
   ("F1", "\x1bOP"), ("F2", "\x1bOQ"), ("F3", "\x1bOR"), ("F4", "\x1bOS"),
   ("F5", "\x1b[15~"), ("F6", "\x1b[17~"), ("F7", "\x1b[18~"), ("F8", "\x1b[19~"),
   ("F9", "\x1b[20~"), ("F10", "\x1b[21~"), ("F11", "\x1b[23~"), ("F12", "\x1b[24~"),
   ("Home", "\x1b[H"), ("End", "\x1b[F"), ("PageUp", "\x1b[5~"),
   ("PageDown", "\x1b[6~"), ("Insert", "\x1b[2~")]

/-- Lookup in the key table. -/
def lookupKey (s : String) : Option String :=
  (specialKeys.find? fun kv => kv.fst == s).map Prod.snd

/-- ASCII branch of unicode case folding used by strings.ToLower; the
recognized names and their lowercase forms are all ASCII. -/
def asciiToLower (c : Char) : Char :=
  if 'A' ≤ c ∧ c ≤ 'Z' then Char.ofNat (c.toNat + 32) else c

/-- strings.ToLower restricted to ASCII input. -/
def goToLower (s : String) : String := String.mk (s.toList.map asciiToLower)

/-- ASCII upcasing (unicode.ToTitle on ASCII letters). -/
def asciiToUpper (c : Char) : Char :=
  if 'a' ≤ c ∧ c ≤ 'z' then Char.ofNat (c.toNat - 32) else c

/-- The word-separator test of strings.Title: ASCII letters, digits and
underscore are not separators, every other ASCII character is. Non-ASCII
characters are kept verbatim by the title transform either way, so any
input containing one fails both table lookups exactly as in Go. -/
def goIsSeparator (c : Char) : Bool :=
  if c.toNat ≤ 0x7F then
    !(decide (('0' ≤ c ∧ c ≤ '9') ∨ ('a' ≤ c ∧ c ≤ 'z') ∨
      ('A' ≤ c ∧ c ≤ 'Z') ∨ c = '_'))
  else true

/-- strings.Title: upcase every character that follows a separator (the
running `prev` starts as a space). -/
def goTitle (s : String) : String :=
  let step := fun (acc : List Char × Char) (c : Char) =>
    let c2 := if goIsSeparator acc.snd then asciiToUpper c else c
    (acc.fst ++ [c2], c)
  String.mk (s.toList.foldl step ([], ' ')).fst

/-- MapKeys: exact table hit, else a hit on the title-cased lowercase form,
else the input verbatim. -/
def MapKeys (input : String) : String :=
  match lookupKey input with
  | some seq => seq
  | none =>
    match lookupKey (goTitle (goToLower input)) with
    | some seq => seq
    | none => input

/-! ### Operation alphabets and well-formedness predicates -/

/-- The Screen operations of the spec: parser writes, explicit cursor
moves, resizes, clears, line/char insertion and deletion, scrolling. -/
inductive ScreenOp where
  | write (data : List Nat)
  | moveCursor (x y : Int)
  | resize (w h : Nat)
  | clear
  | clearLine (y : Int)
  | setCell (x y : Int) (r : Char) (fg bg : Color) (a : Attributes)
  | insertLines (y n : Int)
  | deleteLines (y n : Int)
  | insertChars (x y n : Int)
  | deleteChars (x y n : Int)
  | scrollUp
  | scrollDown

/-- Apply one Screen operation to the terminal. -/
def applyOp (t : Term) : ScreenOp → Term
  | .write data => t.Write data
  | .moveCursor x y => t.withBuf fun sb => sb.MoveCursor x y
  | .resize w h => t.withBuf fun sb => sb.Resize w h
  | .clear => t.withBuf ScreenBuffer.Clear
  | .clearLine y => t.withBuf fun sb => sb.ClearLine y
  | .setCell x y r fg bg a => t.withBuf fun sb => sb.SetCell x y r fg bg a
  | .insertLines y n => t.withBuf fun sb => sb.InsertLines y n
  | .deleteLines y n => t.withBuf fun sb => sb.DeleteLines y n
  | .insertChars x y n => t.withBuf fun sb => sb.InsertChars x y n
  | .deleteChars x y n => t.withBuf fun sb => sb.DeleteChars x y n
  | .scrollUp => t.withBuf ScreenBuffer.ScrollUp
  | .scrollDown => t.withBuf ScreenBuffer.ScrollDown

/-- Apply a sequence of Screen operations. -/
def applyOps (t : Term) (ops : List ScreenOp) : Term :=
  ops.foldl applyOp t

/-- A valid operation per the spec data model: resize targets have
W ≥ 1 and H ≥ 1 (resize arguments are validated upstream to 1..=1000). -/
def ValidOp : ScreenOp → Prop
  | .resize w h => 1 ≤ w ∧ 1 ≤ h
  | _ => True

instance : DecidablePred ValidOp := fun op => by
  cases op <;> simp only [ValidOp] <;> infer_instance

/-- The cursor invariant of the spec: positive geometry and a cursor
inside the grid. -/
def CursorWF (sb : ScreenBuffer) : Prop :=
  1 ≤ sb.width ∧ 1 ≤ sb.height ∧
  0 ≤ sb.cursorX ∧ sb.cursorX < (sb.width : Int) ∧
  0 ≤ sb.cursorY ∧ sb.cursorY < (sb.height : Int)

instance (sb : ScreenBuffer) : Decidable (CursorWF sb) := by
  unfold CursorWF; infer_instance

/-- The grid-shape invariant: one row pointer per screen row and every
referenced backing array of the grid's width. -/
def ShapeWF (sb : ScreenBuffer) : Prop :=
  sb.rows.length = sb.height ∧
  ∀ p ∈ sb.rows, (sb.heap.getD p []).length = sb.width

instance (sb : ScreenBuffer) : Decidable (ShapeWF sb) := by
  unfold ShapeWF; infer_instance

/-- A row observationally blank on its first w cells. -/
def rowBlank (w : Nat) (row : List Cell) : Prop :=
  ∀ x < w, row.getD x blankCell = blankCell

instance (w : Nat) (row : List Cell) : Decidable (rowBlank w row) := by
  unfold rowBlank; infer_instance

/-- Byte sequence of an ASCII string (test vectors). -/
def strBytes (s : String) : List Nat := s.toList.map Char.toNat

/-- The six channel levels of the 6x6x6 color cube. -/
def cubeLevels : List Nat := [0, 51, 102, 153, 204, 255]

/-- Modelled from the spec: the claim's description of the key-map
fallback, "capitalises the first letter of a lowercase form" — upcase
exactly the first character of the lowercased input. Used only to compare
the claim's wording with the source's MapKeys. -/
def specFirstLetterFallback (s : String) : String :=
  match (goToLower s).toList with
  | [] => ""
  | c :: rest => String.mk (asciiToUpper c :: rest)

/-- Equal geometry and cursor (the fields CursorWF observes). -/
def geomEq (a b : ScreenBuffer) : Prop :=
  a.width = b.width ∧ a.height = b.height ∧
  a.cursorX = b.cursorX ∧ a.cursorY = b.cursorY

/-- A 1-wide, 3-high screen whose rows read a, b, c (C5 test fixture). -/
def abcBuffer : ScreenBuffer :=
  (((NewScreenBuffer 1 3).SetCell 0 0 'a' defaultColor defaultColor noAttrs).SetCell
    0 1 'b' defaultColor defaultColor noAttrs).SetCell
    0 2 'c' defaultColor defaultColor noAttrs

/-- An active session whose screen has scrolled one line into scrollback
(C4 test fixture). -/
def scrolledSession : Session :=
  let s := NewSessionModel "id-1" "prog" []
  { s with term := { s.term with buf := s.term.buf.ScrollUp } }

/-- A session that has been stopped (C1 test fixture). -/
def stoppedSession : Session :=
  { NewSessionModel "id-2" "prog" [] with state := SessionState.stopped }

/-- A 10x3 terminal that moved the cursor to (3,1), selected red, saved
cursor and rendition with ESC 7, then hard-reset with ESC c (C6 fixture). -/
def escResetDemoA : Term :=
  (newTerm 10 3).Parse (strBytes "\x1b[2;4H\x1b[31m\x1b7\x1bc")

/-- The same terminal after a subsequent ESC 8 restore (C6 fixture). -/
def escResetDemoB : Term := escResetDemoA.Parse (strBytes "\x1b8")

/-- How the raw log may evolve across one screen operation reached from the
parser: the cap field is untouched, and the log is either kept verbatim or
emptied (only Clear, via ClearRawData, empties it). -/
def RawEvo (a b : ScreenBuffer) : Prop :=
  a.maxRawDataSize = b.maxRawDataSize ∧
    (a.rawData = b.rawData ∨ a.rawData = [])

/-- The full grid-safety invariant: a well-shaped grid of positive
geometry. -/
def FullSWF (sb : ScreenBuffer) : Prop :=
  ShapeWF sb ∧ 1 ≤ sb.width ∧ 1 ≤ sb.height

/-- How the grid shape may evolve across one screen operation reached from
the parser: the geometry is untouched and well-shapedness is preserved. -/
def ShapeEvo (a b : ScreenBuffer) : Prop :=
  a.width = b.width ∧ a.height = b.height ∧ (FullSWF b → FullSWF a)

/-! ## Geometry-preservation lemmas -/

theorem geomEq_refl (a : ScreenBuffer) : geomEq a a := ⟨rfl, rfl, rfl, rfl⟩

theorem geomEq_trans {a b c : ScreenBuffer} (h1 : geomEq a b)
    (h2 : geomEq b c) : geomEq a c := by
  obtain ⟨w1, h1a, x1, y1⟩ := h1
  obtain ⟨w2, h2a, x2, y2⟩ := h2
  exact ⟨w1.trans w2, h1a.trans h2a, x1.trans x2, y1.trans y2⟩

theorem cursorWF_of_geomEq {a b : ScreenBuffer} (h : geomEq a b)
    (hb : CursorWF b) : CursorWF a := by
  obtain ⟨hw, hh, hx, hy⟩ := h
  obtain ⟨b1, b2, b3, b4, b5, b6⟩ := hb
  refine ⟨hw ▸ b1, hh ▸ b2, hx ▸ b3, ?_, hy ▸ b5, ?_⟩
  · rw [hx, hw]; exact b4
  · rw [hy, hh]; exact b6

theorem writeRow_geom (sb : ScreenBuffer) (y : Nat) (row : List Cell) :
    geomEq (sb.writeRow y row) sb := ⟨rfl, rfl, rfl, rfl⟩

theorem storeRawData_geom (sb : ScreenBuffer) (data : List Nat) :
    geomEq (sb.storeRawData data) sb := by
  simp only [ScreenBuffer.storeRawData]
  split <;> exact ⟨rfl, rfl, rfl, rfl⟩

theorem clearRawData_geom (sb : ScreenBuffer) :
    geomEq sb.ClearRawData sb := ⟨rfl, rfl, rfl, rfl⟩

theorem setCell_geom (sb : ScreenBuffer) (x y : Int) (r : Char)
    (fg bg : Color) (attrs : Attributes) :
    geomEq (sb.SetCell x y r fg bg attrs) sb := by
  unfold ScreenBuffer.SetCell
  split
  · exact geomEq_refl sb
  · exact writeRow_geom ..

theorem clearLine_geom (sb : ScreenBuffer) (y : Int) :
    geomEq (sb.ClearLine y) sb := by
  unfold ScreenBuffer.ClearLine
  split
  · exact geomEq_refl sb
  · exact writeRow_geom ..

theorem addToScrollback_geom (sb : ScreenBuffer) (line : List Cell) :
    geomEq (sb.addToScrollback line) sb := by
  unfold ScreenBuffer.addToScrollback
  split <;> exact ⟨rfl, rfl, rfl, rfl⟩

theorem scrollUp_geom (sb : ScreenBuffer) : geomEq sb.ScrollUp sb := by
  unfold ScreenBuffer.ScrollUp
  exact geomEq_trans ⟨rfl, rfl, rfl, rfl⟩ (addToScrollback_geom ..)

theorem scrollDown_geom (sb : ScreenBuffer) : geomEq sb.ScrollDown sb :=
  ⟨rfl, rfl, rfl, rfl⟩

theorem foldl_geom {α : Type} (f : ScreenBuffer → α → ScreenBuffer)
    (hf : ∀ b x, geomEq (f b x) b) :
    ∀ (l : List α) (b : ScreenBuffer), geomEq (l.foldl f b) b
  | [], _ => geomEq_refl _
  | x :: xs, b => geomEq_trans (foldl_geom f hf xs (f b x)) (hf b x)

theorem insertLines_geom (sb : ScreenBuffer) (y n : Int) :
    geomEq (sb.InsertLines y n) sb := by
  unfold ScreenBuffer.InsertLines
  split
  · exact geomEq_refl sb
  · exact geomEq_trans
      (foldl_geom _ (fun b x => writeRow_geom ..) _ _) ⟨rfl, rfl, rfl, rfl⟩

theorem deleteLines_geom (sb : ScreenBuffer) (y n : Int) :
    geomEq (sb.DeleteLines y n) sb := by
  unfold ScreenBuffer.DeleteLines
  split
  · exact geomEq_refl sb
  · exact geomEq_trans
      (foldl_geom _ (fun b x => writeRow_geom ..) _ _) ⟨rfl, rfl, rfl, rfl⟩

theorem insertChars_geom (sb : ScreenBuffer) (x y n : Int) :
    geomEq (sb.InsertChars x y n) sb := by
  unfold ScreenBuffer.InsertChars
  split
  · exact geomEq_refl sb
  · exact writeRow_geom ..

theorem deleteChars_geom (sb : ScreenBuffer) (x y n : Int) :
    geomEq (sb.DeleteChars x y n) sb := by
  unfold ScreenBuffer.DeleteChars
  split
  · exact geomEq_refl sb
  · exact writeRow_geom ..

/-- Clear keeps the geometry and homes the cursor. -/
theorem clear_fields (sb : ScreenBuffer) :
    (sb.Clear).width = sb.width ∧ (sb.Clear).height = sb.height ∧
    (sb.Clear).cursorX = 0 ∧ (sb.Clear).cursorY = 0 := by
  unfold ScreenBuffer.Clear
  have h := foldl_geom
    (fun b y => b.writeRow y (blankify b.width (b.rowVal y)))
    (fun b x => writeRow_geom ..) (List.range sb.height) sb
  exact ⟨h.1, h.2.1, rfl, rfl⟩

/-! ## Cursor-invariant lemmas -/

theorem clampCoord_bounds (v : Int) {n : Nat} (hn : 1 ≤ n) :
    0 ≤ clampCoord v n ∧ clampCoord v n < (n : Int) := by
  unfold clampCoord
  dsimp only
  split_ifs <;> omega

theorem moveCursor_wf {sb : ScreenBuffer} (hw : 1 ≤ sb.width)
    (hh : 1 ≤ sb.height) (x y : Int) : CursorWF (sb.MoveCursor x y) := by
  obtain ⟨hx0, hx1⟩ := clampCoord_bounds x hw
  obtain ⟨hy0, hy1⟩ := clampCoord_bounds y hh
  exact ⟨hw, hh, hx0, hx1, hy0, hy1⟩

theorem clear_wf {sb : ScreenBuffer} (hw : 1 ≤ sb.width)
    (hh : 1 ≤ sb.height) : CursorWF sb.Clear := by
  obtain ⟨h1, h2, h3, h4⟩ := clear_fields sb
  unfold CursorWF
  rw [h1, h2, h3, h4]
  exact ⟨hw, hh, by omega, by omega, by omega, by omega⟩

@[simp] theorem writeRow_width (sb : ScreenBuffer) (y : Nat) (r : List Cell) :
    (sb.writeRow y r).width = sb.width := rfl

@[simp] theorem writeRow_height (sb : ScreenBuffer) (y : Nat) (r : List Cell) :
    (sb.writeRow y r).height = sb.height := rfl

@[simp] theorem writeRow_cursorX (sb : ScreenBuffer) (y : Nat) (r : List Cell) :
    (sb.writeRow y r).cursorX = sb.cursorX := rfl

@[simp] theorem writeRow_cursorY (sb : ScreenBuffer) (y : Nat) (r : List Cell) :
    (sb.writeRow y r).cursorY = sb.cursorY := rfl

@[simp] theorem setCell_width (sb : ScreenBuffer) (x y : Int) (r : Char)
    (fg bg : Color) (a : Attributes) :
    (sb.SetCell x y r fg bg a).width = sb.width := (setCell_geom ..).1

@[simp] theorem setCell_height (sb : ScreenBuffer) (x y : Int) (r : Char)
    (fg bg : Color) (a : Attributes) :
    (sb.SetCell x y r fg bg a).height = sb.height := (setCell_geom ..).2.1

@[simp] theorem setCell_cursorX (sb : ScreenBuffer) (x y : Int) (r : Char)
    (fg bg : Color) (a : Attributes) :
    (sb.SetCell x y r fg bg a).cursorX = sb.cursorX := (setCell_geom ..).2.2.1

@[simp] theorem setCell_cursorY (sb : ScreenBuffer) (x y : Int) (r : Char)
    (fg bg : Color) (a : Attributes) :
    (sb.SetCell x y r fg bg a).cursorY = sb.cursorY := (setCell_geom ..).2.2.2

@[simp] theorem clearLine_width (sb : ScreenBuffer) (y : Int) :
    (sb.ClearLine y).width = sb.width := (clearLine_geom ..).1

@[simp] theorem clearLine_height (sb : ScreenBuffer) (y : Int) :
    (sb.ClearLine y).height = sb.height := (clearLine_geom ..).2.1

@[simp] theorem clearLine_cursorX (sb : ScreenBuffer) (y : Int) :
    (sb.ClearLine y).cursorX = sb.cursorX := (clearLine_geom ..).2.2.1

@[simp] theorem clearLine_cursorY (sb : ScreenBuffer) (y : Int) :
    (sb.ClearLine y).cursorY = sb.cursorY := (clearLine_geom ..).2.2.2

@[simp] theorem scrollUp_width (sb : ScreenBuffer) :
    sb.ScrollUp.width = sb.width := (scrollUp_geom ..).1

@[simp] theorem scrollUp_height (sb : ScreenBuffer) :
    sb.ScrollUp.height = sb.height := (scrollUp_geom ..).2.1

@[simp] theorem scrollUp_cursorX (sb : ScreenBuffer) :
    sb.ScrollUp.cursorX = sb.cursorX := (scrollUp_geom ..).2.2.1

@[simp] theorem scrollUp_cursorY (sb : ScreenBuffer) :
    sb.ScrollUp.cursorY = sb.cursorY := (scrollUp_geom ..).2.2.2

@[simp] theorem scrollDown_width (sb : ScreenBuffer) :
    sb.ScrollDown.width = sb.width := rfl

@[simp] theorem scrollDown_height (sb : ScreenBuffer) :
    sb.ScrollDown.height = sb.height := rfl

@[simp] theorem scrollDown_cursorX (sb : ScreenBuffer) :
    sb.ScrollDown.cursorX = sb.cursorX := rfl

@[simp] theorem scrollDown_cursorY (sb : ScreenBuffer) :
    sb.ScrollDown.cursorY = sb.cursorY := rfl

@[simp] theorem insertLines_width (sb : ScreenBuffer) (y n : Int) :
    (sb.InsertLines y n).width = sb.width := (insertLines_geom ..).1

@[simp] theorem insertLines_height (sb : ScreenBuffer) (y n : Int) :
    (sb.InsertLines y n).height = sb.height := (insertLines_geom ..).2.1

@[simp] theorem insertLines_cursorX (sb : ScreenBuffer) (y n : Int) :
    (sb.InsertLines y n).cursorX = sb.cursorX := (insertLines_geom ..).2.2.1

@[simp] theorem insertLines_cursorY (sb : ScreenBuffer) (y n : Int) :
    (sb.InsertLines y n).cursorY = sb.cursorY := (insertLines_geom ..).2.2.2

@[simp] theorem deleteLines_width (sb : ScreenBuffer) (y n : Int) :
    (sb.DeleteLines y n).width = sb.width := (deleteLines_geom ..).1

@[simp] theorem deleteLines_height (sb : ScreenBuffer) (y n : Int) :
    (sb.DeleteLines y n).height = sb.height := (deleteLines_geom ..).2.1

@[simp] theorem deleteLines_cursorX (sb : ScreenBuffer) (y n : Int) :
    (sb.DeleteLines y n).cursorX = sb.cursorX := (deleteLines_geom ..).2.2.1

@[simp] theorem deleteLines_cursorY (sb : ScreenBuffer) (y n : Int) :
    (sb.DeleteLines y n).cursorY = sb.cursorY := (deleteLines_geom ..).2.2.2

@[simp] theorem insertChars_width (sb : ScreenBuffer) (x y n : Int) :
    (sb.InsertChars x y n).width = sb.width := (insertChars_geom ..).1

@[simp] theorem insertChars_height (sb : ScreenBuffer) (x y n : Int) :
    (sb.InsertChars x y n).height = sb.height := (insertChars_geom ..).2.1

@[simp] theorem insertChars_cursorX (sb : ScreenBuffer) (x y n : Int) :
    (sb.InsertChars x y n).cursorX = sb.cursorX := (insertChars_geom ..).2.2.1

@[simp] theorem insertChars_cursorY (sb : ScreenBuffer) (x y n : Int) :
    (sb.InsertChars x y n).cursorY = sb.cursorY := (insertChars_geom ..).2.2.2

@[simp] theorem deleteChars_width (sb : ScreenBuffer) (x y n : Int) :
    (sb.DeleteChars x y n).width = sb.width := (deleteChars_geom ..).1

@[simp] theorem deleteChars_height (sb : ScreenBuffer) (x y n : Int) :
    (sb.DeleteChars x y n).height = sb.height := (deleteChars_geom ..).2.1

@[simp] theorem deleteChars_cursorX (sb : ScreenBuffer) (x y n : Int) :
    (sb.DeleteChars x y n).cursorX = sb.cursorX := (deleteChars_geom ..).2.2.1

@[simp] theorem deleteChars_cursorY (sb : ScreenBuffer) (x y n : Int) :
    (sb.DeleteChars x y n).cursorY = sb.cursorY := (deleteChars_geom ..).2.2.2

@[simp] theorem storeRawData_width (sb : ScreenBuffer) (d : List Nat) :
    (sb.storeRawData d).width = sb.width := (storeRawData_geom ..).1

@[simp] theorem storeRawData_height (sb : ScreenBuffer) (d : List Nat) :
    (sb.storeRawData d).height = sb.height := (storeRawData_geom ..).2.1

@[simp] theorem storeRawData_cursorX (sb : ScreenBuffer) (d : List Nat) :
    (sb.storeRawData d).cursorX = sb.cursorX := (storeRawData_geom ..).2.2.1

@[simp] theorem storeRawData_cursorY (sb : ScreenBuffer) (d : List Nat) :
    (sb.storeRawData d).cursorY = sb.cursorY := (storeRawData_geom ..).2.2.2

theorem resize_wf {sb : ScreenBuffer} {w h : Nat} (hw : 1 ≤ w) (hh : 1 ≤ h)
    (hx : 0 ≤ sb.cursorX) (hy : 0 ≤ sb.cursorY) : CursorWF (sb.Resize w h) := by
  unfold ScreenBuffer.Resize CursorWF
  dsimp only
  refine ⟨hw, hh, ?_, ?_, ?_, ?_⟩ <;> split_ifs <;> omega

theorem bufLineFeed_wf {sb : ScreenBuffer} (h : CursorWF sb) :
    CursorWF (bufLineFeed sb) := by
  obtain ⟨h1, h2, h3, h4, h5, h6⟩ := h
  unfold bufLineFeed CursorWF
  dsimp only
  split_ifs with hc
  · refine ⟨?_, ?_, ?_, ?_, ?_, ?_⟩ <;>
      simp only [scrollUp_width, scrollUp_height, scrollUp_cursorX,
        scrollUp_cursorY] <;> omega
  · simp only [] at hc
    refine ⟨?_, ?_, ?_, ?_, ?_, ?_⟩ <;> simp only [] <;> omega

theorem putChar_wf {sb : ScreenBuffer} (h : CursorWF sb) (ch : Char)
    (fg bg : Color) (attrs : Attributes) :
    CursorWF (putChar sb ch fg bg attrs) := by
  obtain ⟨h1, h2, h3, h4, h5, h6⟩ := h
  unfold putChar CursorWF
  dsimp only
  split_ifs with hc1 hc2
  · refine ⟨?_, ?_, ?_, ?_, ?_, ?_⟩ <;>
      simp only [scrollUp_width, scrollUp_height, scrollUp_cursorX,
        scrollUp_cursorY, setCell_width, setCell_height, setCell_cursorX,
        setCell_cursorY] <;> omega
  · simp only [setCell_height, setCell_cursorY] at hc2
    refine ⟨?_, ?_, ?_, ?_, ?_, ?_⟩ <;>
      simp only [setCell_width, setCell_height, setCell_cursorX,
        setCell_cursorY] <;> omega
  · simp only [setCell_width, setCell_cursorX] at hc1
    refine ⟨?_, ?_, ?_, ?_, ?_, ?_⟩ <;>
      simp only [setCell_width, setCell_height, setCell_cursorX,
        setCell_cursorY] <;> omega

/-! ## Parser preservation of the cursor invariant -/

@[simp] theorem withBuf_buf (t : Term) (f : ScreenBuffer → ScreenBuffer) :
    (t.withBuf f).buf = f t.buf := rfl

@[simp] theorem handleSGR_buf (t : Term) (params : List Int) :
    (t.handleSGR params).buf = t.buf := rfl

@[simp] theorem saveCursor_buf (t : Term) : t.saveCursor.buf = t.buf := rfl

theorem restoreCursor_wf {t : Term} (h : CursorWF t.buf) :
    CursorWF t.restoreCursor.buf := by
  unfold Term.restoreCursor
  split
  · exact h
  · exact moveCursor_wf h.1 h.2.1 ..

theorem eraseRight_geom (sb : ScreenBuffer) (fg bg : Color) :
    geomEq (eraseRight sb fg bg) sb :=
  foldl_geom _ (fun b x => setCell_geom ..) _ _

theorem eraseLeft_geom (sb : ScreenBuffer) (fg bg : Color) :
    geomEq (eraseLeft sb fg bg) sb :=
  foldl_geom _ (fun b x => setCell_geom ..) _ _

theorem handleNormal_wf {t : Term} (b : Nat) (h : CursorWF t.buf) :
    CursorWF (t.handleNormal b).buf := by
  unfold Term.handleNormal
  split_ifs
  · exact h
  · exact moveCursor_wf h.1 h.2.1 ..
  · exact bufLineFeed_wf h
  · exact moveCursor_wf h.1 h.2.1 ..
  · rw [withBuf_buf]
    split
    · exact moveCursor_wf h.1 h.2.1 ..
    · exact h
  · exact putChar_wf h ..
  · exact h

theorem handleEscape_wf {t : Term} (b : Nat) (h : CursorWF t.buf) :
    CursorWF (t.handleEscape b).buf := by
  obtain ⟨h1, h2, h3, h4, h5, h6⟩ := h
  have h' : CursorWF t.buf := ⟨h1, h2, h3, h4, h5, h6⟩
  by_cases e1 : b = 91
  · subst e1; exact h'
  by_cases e2 : b = 93
  · subst e2; exact h'
  by_cases e3 : b = 80
  · subst e3; exact h'
  by_cases e4a : b = 40
  · subst e4a; exact h'
  by_cases e4b : b = 41
  · subst e4b; exact h'
  by_cases e4c : b = 42
  · subst e4c; exact h'
  by_cases e4d : b = 43
  · subst e4d; exact h'
  by_cases e5 : b = 99
  · subst e5; exact clear_wf h1 h2
  by_cases e6 : b = 68
  · subst e6; exact bufLineFeed_wf h'
  by_cases e7 : b = 77
  · subst e7
    show CursorWF (if 0 < t.buf.cursorY then
      { t.buf with cursorY := t.buf.cursorY - 1 } else t.buf.ScrollDown)
    split_ifs with hc
    · exact ⟨h1, h2, h3, h4, by simp only []; omega, by simp only []; omega⟩
    · refine ⟨?_, ?_, ?_, ?_, ?_, ?_⟩ <;>
        simp only [scrollDown_width, scrollDown_height, scrollDown_cursorX,
          scrollDown_cursorY] <;> omega
  by_cases e8 : b = 69
  · subst e8
    show CursorWF (bufLineFeed { t.buf with cursorX := 0 })
    refine bufLineFeed_wf ⟨h1, h2, ?_, ?_, ?_, ?_⟩
    · exact le_refl 0
    · show (0 : Int) < (t.buf.width : Int); omega
    · exact h5
    · exact h6
  by_cases e9 : b = 55
  · subst e9; exact h'
  by_cases e10 : b = 56
  · subst e10; exact restoreCursor_wf h'
  unfold Term.handleEscape
  rw [if_neg e1, if_neg e2, if_neg e3,
    if_neg (show ¬(b = 40 ∨ b = 41 ∨ b = 42 ∨ b = 43) by omega),
    if_neg e5, if_neg e6, if_neg e7, if_neg e8, if_neg e9, if_neg e10]
  exact h'

theorem eraseRight_wf {sb : ScreenBuffer} (h : CursorWF sb) (fg bg : Color) :
    CursorWF (eraseRight sb fg bg) :=
  cursorWF_of_geomEq (eraseRight_geom ..) h

theorem eraseLeft_wf {sb : ScreenBuffer} (h : CursorWF sb) (fg bg : Color) :
    CursorWF (eraseLeft sb fg bg) :=
  cursorWF_of_geomEq (eraseLeft_geom ..) h

theorem handleCSI_wf {t : Term} (b : Nat) (h : CursorWF t.buf) :
    CursorWF (t.handleCSI b).buf := by
  obtain ⟨h1, h2, h3, h4, h5, h6⟩ := h
  have h' : CursorWF t.buf := ⟨h1, h2, h3, h4, h5, h6⟩
  by_cases ep : 0x20 ≤ b ∧ b ≤ 0x3F
  · unfold Term.handleCSI
    rw [if_pos ep]
    exact h'
  by_cases e1 : b = 65
  · subst e1; exact moveCursor_wf h1 h2 ..
  by_cases e2 : b = 66
  · subst e2; exact moveCursor_wf h1 h2 ..
  by_cases e3 : b = 67
  · subst e3; exact moveCursor_wf h1 h2 ..
  by_cases e4 : b = 68
  · subst e4; exact moveCursor_wf h1 h2 ..
  by_cases e5a : b = 72
  · subst e5a; exact moveCursor_wf h1 h2 ..
  by_cases e5b : b = 102
  · subst e5b; exact moveCursor_wf h1 h2 ..
  by_cases e6 : b = 74
  · subst e6
    show CursorWF (Term.buf
      (if (parseCSIParams t.escapeBuffer).headD 0 = 0 then
        t.withBuf fun sb =>
          (intRange (sb.cursorY + 1) sb.height).foldl
            (fun bb y => bb.ClearLine y) (eraseRight sb t.currentFG t.currentBG)
      else if (parseCSIParams t.escapeBuffer).headD 0 = 1 then
        t.withBuf fun sb =>
          eraseLeft ((intRange 0 sb.cursorY).foldl (fun bb y => bb.ClearLine y) sb)
            t.currentFG t.currentBG
      else if (parseCSIParams t.escapeBuffer).headD 0 = 2 then
        t.withBuf ScreenBuffer.Clear
      else t))
    rw [apply_ite Term.buf, apply_ite Term.buf, apply_ite Term.buf]
    split_ifs
    · exact cursorWF_of_geomEq
        (foldl_geom _ (fun bb y => clearLine_geom ..) _ _) (eraseRight_wf h' ..)
    · exact eraseLeft_wf (cursorWF_of_geomEq
        (foldl_geom _ (fun bb y => clearLine_geom ..) _ _) h') ..
    · exact clear_wf h1 h2
    · exact h'
  by_cases e7 : b = 75
  · subst e7
    show CursorWF (Term.buf
      (if (parseCSIParams t.escapeBuffer).headD 0 = 0 then
        t.withBuf fun sb => eraseRight sb t.currentFG t.currentBG
      else if (parseCSIParams t.escapeBuffer).headD 0 = 1 then
        t.withBuf fun sb => eraseLeft sb t.currentFG t.currentBG
      else if (parseCSIParams t.escapeBuffer).headD 0 = 2 then
        t.withBuf fun sb => sb.ClearLine sb.cursorY
      else t))
    rw [apply_ite Term.buf, apply_ite Term.buf, apply_ite Term.buf]
    split_ifs
    · exact eraseRight_wf h' ..
    · exact eraseLeft_wf h' ..
    · exact cursorWF_of_geomEq (clearLine_geom ..) h'
    · exact h'
  by_cases e8 : b = 109
  · subst e8; exact h'
  by_cases e9 : b = 115
  · subst e9; exact h'
  by_cases e10 : b = 117
  · subst e10; exact restoreCursor_wf h'
  by_cases e11 : b = 76
  · subst e11; exact cursorWF_of_geomEq (insertLines_geom ..) h'
  by_cases e12 : b = 77
  · subst e12; exact cursorWF_of_geomEq (deleteLines_geom ..) h'
  by_cases e13 : b = 80
  · subst e13; exact cursorWF_of_geomEq (deleteChars_geom ..) h'
  by_cases e14 : b = 64
  · subst e14; exact cursorWF_of_geomEq (insertChars_geom ..) h'
  by_cases e15 : b = 88
  · subst e15
    exact cursorWF_of_geomEq (foldl_geom _ (fun bb i => setCell_geom ..) _ _) h'
  by_cases e16 : b = 71
  · subst e16; exact moveCursor_wf h1 h2 ..
  by_cases e17 : b = 100
  · subst e17; exact moveCursor_wf h1 h2 ..
  unfold Term.handleCSI
  rw [if_neg ep]
  dsimp only
  rw [if_neg e1, if_neg e2, if_neg e3, if_neg e4,
    if_neg (show ¬(b = 72 ∨ b = 102) by omega), if_neg e6, if_neg e7,
    if_neg e8, if_neg e9, if_neg e10, if_neg e11, if_neg e12, if_neg e13,
    if_neg e14, if_neg e15, if_neg e16, if_neg e17]
  exact h'

theorem handleOSC_buf (t : Term) (b : Nat) : (t.handleOSC b).buf = t.buf := by
  unfold Term.handleOSC
  split_ifs <;> rfl

theorem handleDCS_buf (t : Term) (b : Nat) : (t.handleDCS b).buf = t.buf := by
  unfold Term.handleDCS
  split_ifs <;> rfl

theorem parseByte_wf {t : Term} (b : Nat) (h : CursorWF t.buf) :
    CursorWF (t.parseByte b).buf := by
  unfold Term.parseByte
  split
  · exact handleNormal_wf b h
  · exact handleEscape_wf b h
  · exact handleCSI_wf b h
  · exact (handleOSC_buf t b).symm ▸ h
  · exact (handleDCS_buf t b).symm ▸ h
  · exact h

theorem parse_wf : ∀ (data : List Nat) (t : Term), CursorWF t.buf →
    CursorWF ((t.Parse data).buf)
  | [], _, h => h
  | b :: rest, t, h => parse_wf rest (t.parseByte b) (parseByte_wf b h)

theorem write_wf {t : Term} (data : List Nat) (h : CursorWF t.buf) :
    CursorWF ((t.Write data).buf) :=
  parse_wf data _ (cursorWF_of_geomEq (storeRawData_geom ..) h)

theorem applyOp_wf {t : Term} {op : ScreenOp} (h : CursorWF t.buf)
    (hv : ValidOp op) : CursorWF ((applyOp t op).buf) := by
  cases op with
  | write data => exact write_wf data h
  | moveCursor x y => exact moveCursor_wf h.1 h.2.1 ..
  | resize w hh => exact resize_wf hv.1 hv.2 h.2.2.1 h.2.2.2.2.1
  | clear => exact clear_wf h.1 h.2.1
  | clearLine y => exact cursorWF_of_geomEq (clearLine_geom ..) h
  | setCell x y r fg bg a => exact cursorWF_of_geomEq (setCell_geom ..) h
  | insertLines y n => exact cursorWF_of_geomEq (insertLines_geom ..) h
  | deleteLines y n => exact cursorWF_of_geomEq (deleteLines_geom ..) h
  | insertChars x y n => exact cursorWF_of_geomEq (insertChars_geom ..) h
  | deleteChars x y n => exact cursorWF_of_geomEq (deleteChars_geom ..) h
  | scrollUp => exact cursorWF_of_geomEq (scrollUp_geom ..) h
  | scrollDown => exact cursorWF_of_geomEq (scrollDown_geom ..) h

theorem applyOps_wf : ∀ (ops : List ScreenOp) (t : Term), CursorWF t.buf →
    (∀ op ∈ ops, ValidOp op) → CursorWF ((applyOps t ops).buf)
  | [], _, h, _ => h
  | op :: rest, t, h, hv =>
    applyOps_wf rest (applyOp t op) (applyOp_wf h (hv op (List.mem_cons_self op rest)))
      (fun o ho => hv o (List.mem_cons_of_mem op ho))

/-- C2: starting from a screen with W ≥ 1 and H ≥ 1 and an in-bounds
cursor, every sequence of valid Screen operations (parser writes, cursor
moves, resizes to positive geometries, clears, line/char insertion and
deletion, scrolling) leaves the cursor with 0 ≤ x < W and 0 ≤ y < H for
the current W and H, after each operation (every prefix of the list). -/
theorem cursor_in_bounds_after_each_op (ops : List ScreenOp) (t : Term)
    (h0 : CursorWF t.buf) (hv : ∀ op ∈ ops, ValidOp op) (k : Nat) :
    CursorWF ((applyOps t (ops.take k)).buf) :=
  applyOps_wf (ops.take k) t h0 (fun o ho => hv o (List.mem_of_mem_take ho))

/-- C2 witness: a concrete 5x3 screen driven by a write containing CSI
sequences, a cursor move, a resize and a delete-lines, checked at every
prefix length. -/
theorem cursor_in_bounds_after_each_op_witness :
    CursorWF (newTerm 5 3).buf ∧
    CursorWF ((applyOps (newTerm 5 3)
      ([ScreenOp.write (strBytes "ab\x1b[10;9Hcd\x1b[Me"),
        ScreenOp.moveCursor 99 (-4), ScreenOp.resize 2 2,
        ScreenOp.deleteLines 0 5].take 3)).buf) := by
  constructor
  · decide
  · exact cursor_in_bounds_after_each_op _ _ (by decide)
      (by intro op hop; fin_cases hop <;> simp [ValidOp]) 3

/-! ## C7: CSI prefixes without a terminator do not touch the screen -/

theorem csiAccum : ∀ (bs : List Nat) (t : Term), t.pstate = PState.csi →
    (∀ b ∈ bs, 0x20 ≤ b ∧ b ≤ 0x3F) →
    (t.Parse bs).buf = t.buf ∧ (t.Parse bs).currentFG = t.currentFG ∧
    (t.Parse bs).currentBG = t.currentBG ∧
    (t.Parse bs).currentAttrs = t.currentAttrs ∧
    (t.Parse bs).savedCursor = t.savedCursor ∧
    (t.Parse bs).pstate = PState.csi
  | [], t, ht, _ => ⟨rfl, rfl, rfl, rfl, rfl, ht⟩
  | b :: rest, t, ht, hb => by
    have hbb := hb b (List.mem_cons_self b rest)
    have e : t.parseByte b =
        { t with pstate := PState.csi,
                 escapeBuffer := t.escapeBuffer ++ [b] } := by
      unfold Term.parseByte Term.handleCSI
      rw [ht, if_pos hbb]
    have ih := csiAccum rest (t.parseByte b)
      (by rw [e])
      (fun x hx => hb x (List.mem_cons_of_mem b hx))
    refine ⟨?_, ?_, ?_, ?_, ?_, ?_⟩
    · exact ih.1.trans (by rw [e])
    · exact ih.2.1.trans (by rw [e])
    · exact ih.2.2.1.trans (by rw [e])
    · exact ih.2.2.2.1.trans (by rw [e])
    · exact ih.2.2.2.2.1.trans (by rw [e])
    · exact ih.2.2.2.2.2

/-- C7: from the Ground state, feeding ESC [ followed by any bytes in
0x20..=0x3F (a CSI prefix ending with a non-terminator) leaves the Screen
untouched — grid, cursor, scrollback and raw log (the buffer record) as
well as the graphic state and saved-cursor slot are unchanged; only the
parser state and intermediate buffer move. -/
theorem csi_prefix_leaves_screen_unchanged (t : Term) (bs : List Nat)
    (hstate : t.pstate = PState.normal)
    (hb : ∀ b ∈ bs, 0x20 ≤ b ∧ b ≤ 0x3F) :
    (t.Parse (0x1B :: 0x5B :: bs)).buf = t.buf ∧
    (t.Parse (0x1B :: 0x5B :: bs)).currentFG = t.currentFG ∧
    (t.Parse (0x1B :: 0x5B :: bs)).currentBG = t.currentBG ∧
    (t.Parse (0x1B :: 0x5B :: bs)).currentAttrs = t.currentAttrs ∧
    (t.Parse (0x1B :: 0x5B :: bs)).savedCursor = t.savedCursor := by
  have e1 : t.parseByte 0x1B =
      { t with pstate := PState.escape, escapeBuffer := [] } := by
    unfold Term.parseByte Term.handleNormal
    rw [hstate]
    rfl
  have e2 : t.Parse (0x1B :: 0x5B :: bs) =
      Term.Parse { t with pstate := PState.csi, escapeBuffer := [] } bs := by
    show ((t.parseByte 0x1B).parseByte 0x5B).Parse bs = _
    rw [e1]
    rfl
  rw [e2]
  have ih := csiAccum bs { t with pstate := PState.csi, escapeBuffer := [] }
    rfl hb
  exact ⟨ih.1, ih.2.1, ih.2.2.1, ih.2.2.2.1, ih.2.2.2.2.1⟩

/-- C7 witness: a fresh 3x2 terminal fed ESC [ 1 ; ? — the screen record
and graphic state are verbatim unchanged. -/
theorem csi_prefix_leaves_screen_unchanged_witness :
    (newTerm 3 2).pstate = PState.normal ∧
    (∀ b ∈ strBytes "1;?", 0x20 ≤ b ∧ b ≤ 0x3F) ∧
    ((newTerm 3 2).Parse (0x1B :: 0x5B :: strBytes "1;?")).buf =
      (newTerm 3 2).buf :=
  ⟨by decide, by decide,
    (csi_prefix_leaves_screen_unchanged (newTerm 3 2) (strBytes "1;?")
      (by decide) (by decide)).1⟩

/-! ## C8: extended 256-color SGR parameters -/

theorem mul51_mem_cubeLevels : ∀ q ≤ 5, q * 51 ∈ cubeLevels := by decide

/-- C8: an SGR parameter sequence 38;5;c sets the foreground (and 48;5;c
the background) to ansi256ToColor c; for 16 ≤ c ≤ 231 that color is the
6x6x6 cube value (((c-16)/36)*51, ((c-16)/6 mod 6)*51, ((c-16) mod 6)*51)
with every channel drawn from {0,51,102,153,204,255}, and for
232 ≤ c ≤ 255 all three channels equal 8 + (c-232)*10. -/
theorem sgr_extended_color (t : Term) (c : Int) :
    ((t.handleSGR [38, 5, c]).currentFG = ansi256ToColor c ∧
     (t.handleSGR [48, 5, c]).currentBG = ansi256ToColor c) ∧
    (16 ≤ c → c ≤ 231 →
      ansi256ToColor c =
        { r := (c - 16).toNat / 36 * 51, g := (c - 16).toNat / 6 % 6 * 51,
          b := (c - 16).toNat % 6 * 51, isDefault := false } ∧
      (c - 16).toNat / 36 * 51 ∈ cubeLevels ∧
      (c - 16).toNat / 6 % 6 * 51 ∈ cubeLevels ∧
      (c - 16).toNat % 6 * 51 ∈ cubeLevels) ∧
    (232 ≤ c → c ≤ 255 →
      ansi256ToColor c =
        { r := 8 + (c - 232).toNat * 10, g := 8 + (c - 232).toNat * 10,
          b := 8 + (c - 232).toNat * 10, isDefault := false }) := by
  refine ⟨⟨rfl, rfl⟩, ?_, ?_⟩
  · intro hlo hhi
    unfold ansi256ToColor
    rw [if_neg (show ¬(c < 16) by omega), if_pos (show c < 232 by omega)]
    refine ⟨?_, ?_, ?_, ?_⟩
    · show Color.mk (toU8 _) (toU8 _) (toU8 _) false = _
      unfold toU8
      congr 1 <;> omega
    · exact mul51_mem_cubeLevels _ (by omega)
    · exact mul51_mem_cubeLevels _ (by omega)
    · exact mul51_mem_cubeLevels _ (by omega)
  · intro hlo hhi
    unfold ansi256ToColor
    rw [if_neg (show ¬(c < 16) by omega), if_neg (show ¬(c < 232) by omega)]
    show Color.mk (toU8 _) (toU8 _) (toU8 _) false = _
    unfold toU8
    congr 1 <;> omega

/-- C8 witness: cube index 196 is pure red (255,0,0) and grayscale index
240 is (88,88,88), both via the SGR 38;5;c path. -/
theorem sgr_extended_color_witness :
    ((newTerm 2 2).handleSGR [38, 5, 196]).currentFG = ansi256ToColor 196 ∧
    (16 ≤ (196 : Int) ∧ (196 : Int) ≤ 231 ∧
      ansi256ToColor 196 =
        { r := ((196 : Int) - 16).toNat / 36 * 51,
          g := ((196 : Int) - 16).toNat / 6 % 6 * 51,
          b := ((196 : Int) - 16).toNat % 6 * 51, isDefault := false }) ∧
    (232 ≤ (240 : Int) ∧ (240 : Int) ≤ 255 ∧
      ansi256ToColor 240 =
        { r := 8 + ((240 : Int) - 232).toNat * 10,
          g := 8 + ((240 : Int) - 232).toNat * 10,
          b := 8 + ((240 : Int) - 232).toNat * 10, isDefault := false }) :=
  ⟨(sgr_extended_color (newTerm 2 2) 196).1.1,
   ⟨by decide, by decide,
    ((sgr_extended_color (newTerm 2 2) 196).2.1 (by decide) (by decide)).1⟩,
   ⟨by decide, by decide,
    (sgr_extended_color (newTerm 2 2) 240).2.2 (by decide) (by decide)⟩⟩

/-! ## C9: the key map -/

/-- C9 counterexample: the claim's fallback, read as capitalising only the
first letter of a lowercase form, would leave "ctrl+c" unrecognized
("Ctrl+c" is not in the table), so the claim predicts verbatim output —
but MapKeys("ctrl+c") emits 0x03: strings.Title also upcases the letter
after the "+" separator. -/
theorem mapKeys_first_letter_only_refuted :
    MapKeys "ctrl+c" = "\x03" ∧
    MapKeys "ctrl+c" ≠ "ctrl+c" ∧
    lookupKey "ctrl+c" = none ∧
    specFirstLetterFallback "ctrl+c" = "Ctrl+c" ∧
    lookupKey (specFirstLetterFallback "ctrl+c") = none := by
  refine ⟨?_, ?_, ?_, ?_, ?_⟩ <;> decide

/-- C9 amended: MapKeys emits the table sequence on an exact name match;
otherwise it retries with the lowercased input title-cased (the first
letter and every letter following a non-alphanumeric separator upcased,
strings.Title of strings.ToLower) and emits that name's sequence on a hit;
otherwise it emits the input verbatim. In particular map("Ctrl+C") = 0x03,
map("Up") = ESC [ A and map("hello") = "hello". -/
theorem mapKeys_spec (s : String) :
    (∀ v, lookupKey s = some v → MapKeys s = v) ∧
    (lookupKey s = none →
      ∀ v, lookupKey (goTitle (goToLower s)) = some v → MapKeys s = v) ∧
    (lookupKey s = none → lookupKey (goTitle (goToLower s)) = none →
      MapKeys s = s) ∧
    MapKeys "Ctrl+C" = "\x03" ∧ MapKeys "Up" = "\x1b[A" ∧
    MapKeys "hello" = "hello" := by
  refine ⟨?_, ?_, ?_, by decide, by decide, by decide⟩
  · intro v hv
    unfold MapKeys
    rw [hv]
  · intro h0 v hv
    unfold MapKeys
    rw [h0, hv]
  · intro h0 h1
    unfold MapKeys
    rw [h0, h1]

/-- C9 witness: the lowercase form "up" misses the table, its title-cased
form "Up" hits it, and MapKeys follows the fallback. -/
theorem mapKeys_spec_witness :
    lookupKey "up" = none ∧
    lookupKey (goTitle (goToLower "up")) = some "\x1b[A" ∧
    MapKeys "up" = "\x1b[A" :=
  ⟨by decide, by decide,
    (mapKeys_spec "up").2.1 (by decide) "\x1b[A" (by decide)⟩

/-! ## Clearing blanks every visible cell (through aliases) -/

theorem blankify_length (w : Nat) (row : List Cell) :
    (blankify w row).length = row.length := by
  simp [blankify]

theorem blankify_getD {w x : Nat} (row : List Cell) (hx : x < w) :
    (blankify w row).getD x blankCell = blankCell := by
  unfold blankify
  rw [List.mapIdx_eq_ofFn, List.getD_eq_getElem?_getD, List.getElem?_ofFn]
  unfold List.ofFnNthVal
  split
  · simp [hx]
  · rfl

theorem writeRow_rowVal (sb : ScreenBuffer) (y : Nat) (row : List Cell)
    (z : Nat) :
    (sb.writeRow y row).rowVal z =
      if sb.rowPtr z = sb.rowPtr y ∧ sb.rowPtr y < sb.heap.length then row
      else sb.rowVal z := by
  unfold ScreenBuffer.rowVal
  show (sb.heap.set (sb.rowPtr y) row).getD (sb.rowPtr z) [] = _
  rw [List.getD_eq_getElem?_getD, List.getD_eq_getElem?_getD,
    List.getElem?_set]
  by_cases hzy : sb.rowPtr z = sb.rowPtr y
  · by_cases hlt : sb.rowPtr y < sb.heap.length
    · rw [if_pos hzy.symm, if_pos hlt, if_pos ⟨hzy, hlt⟩]
      rfl
    · rw [if_pos hzy.symm, if_neg hlt, if_neg (fun hh => hlt hh.2),
        List.getElem?_eq_none (by omega)]
  · rw [if_neg (fun hh => hzy hh.symm), if_neg (fun hh => hzy hh.1)]

/-- One blanking write makes its own row observationally blank. -/
theorem clearStep_makes_blank (sb : ScreenBuffer) (y : Nat) :
    rowBlank sb.width
      ((sb.writeRow y (blankify sb.width (sb.rowVal y))).rowVal y) := by
  intro x hx
  rw [writeRow_rowVal]
  split_ifs with hc
  · exact blankify_getD _ hx
  · -- the set missed: the pointer is outside the heap, so the row reads []
    have hge : sb.heap.length ≤ sb.rowPtr y := by
      rcases Nat.lt_or_ge (sb.rowPtr y) sb.heap.length with h | h
      · exact absurd ⟨rfl, h⟩ hc
      · exact h
    have hrow : sb.rowVal y = [] := by
      unfold ScreenBuffer.rowVal
      rw [List.getD_eq_getElem?_getD, List.getElem?_eq_none (by omega)]
      rfl
    rw [hrow]
    rfl

/-- A blanking write keeps every already-blank row blank, aliased or not. -/
theorem clearStep_keeps_blank (sb : ScreenBuffer) (y z : Nat)
    (h : rowBlank sb.width (sb.rowVal z)) :
    rowBlank sb.width
      ((sb.writeRow y (blankify sb.width (sb.rowVal y))).rowVal z) := by
  intro x hx
  rw [writeRow_rowVal]
  split_ifs with hc
  · exact blankify_getD _ hx
  · exact h x hx

/-- Folding blanking writes over any index list blanks all of them and
keeps previously blank rows blank. -/
theorem clearFold_blank :
    ∀ (l : List Nat) (sb : ScreenBuffer) (z : Nat),
      (z ∈ l ∨ rowBlank sb.width (sb.rowVal z)) →
      rowBlank sb.width
        ((l.foldl (fun b y => b.writeRow y (blankify b.width (b.rowVal y))) sb).rowVal z)
  | [], sb, z, h => by
    rcases h with h | h
    · cases h
    · exact h
  | y :: rest, sb, z, h => by
    show rowBlank sb.width
      ((rest.foldl _ (sb.writeRow y (blankify sb.width (sb.rowVal y)))).rowVal z)
    rcases h with h | h
    · rcases List.mem_cons.mp h with rfl | hz
      · exact clearFold_blank rest
          (sb.writeRow z (blankify sb.width (sb.rowVal z))) z
          (Or.inr (clearStep_makes_blank sb z))
      · exact clearFold_blank rest
          (sb.writeRow y (blankify sb.width (sb.rowVal y))) z (Or.inl hz)
    · exact clearFold_blank rest
        (sb.writeRow y (blankify sb.width (sb.rowVal y))) z
        (Or.inr (clearStep_keeps_blank sb y z h))

/-- Clear leaves every cell of the visible grid at the default. -/
theorem clear_readCell (sb : ScreenBuffer) (y x : Nat) (hy : y < sb.height)
    (hx : x < sb.width) : (sb.Clear).readCell y x = blankCell := by
  unfold ScreenBuffer.Clear ScreenBuffer.ClearRawData
  dsimp only
  show ((List.foldl _ sb (List.range sb.height)).rowVal y).getD x blankCell = _
  exact clearFold_blank (List.range sb.height) sb y
    (Or.inl (List.mem_range.mpr hy)) x hx

/-! ## C5: DeleteLines and slice aliasing -/

/-- C5 (code bug): on a 1-wide, 3-row screen holding a, b, c, the claim
requires DeleteLines(0,1) to move row 2 into row 1 (so row 1 reads c).
Evaluating the code, row 1 reads a blank instead: the shift copies slice
headers, so the bottom-row clear also blanks its alias at row 1. -/
theorem deleteLines_row_shift_eval :
    (abcBuffer.readCell 0 0).rune = 'a' ∧
    (abcBuffer.readCell 1 0).rune = 'b' ∧
    (abcBuffer.readCell 2 0).rune = 'c' ∧
    abcBuffer.width = 1 ∧ abcBuffer.height = 3 ∧
    ((abcBuffer.DeleteLines 0 1).readCell 0 0).rune = 'b' ∧
    ((abcBuffer.DeleteLines 0 1).readCell 1 0).rune = ' ' ∧
    (abcBuffer.DeleteLines 0 1).readCell 1 0 ≠ abcBuffer.readCell 2 0 := by
  refine ⟨?_, ?_, ?_, ?_, ?_, ?_, ?_, ?_⟩ <;> decide

/-! ## C6: ESC c and the saved-cursor slot -/

/-- C6 counterexample: after save (ESC 7) and hard reset (ESC c), the
restore ESC 8 is not a no-op — it moves the cursor back to the saved (3,1)
and restores the saved red foreground, because ESC c does not reset the
saved-state slot. -/
theorem escC_restore_not_noop :
    escResetDemoA.buf.GetCursorPosition = (0, 0) ∧
    escResetDemoA.currentFG = defaultColor ∧
    escResetDemoA.savedCursor ≠ none ∧
    escResetDemoB.buf.GetCursorPosition = (3, 1) ∧
    escResetDemoB.currentFG = Color.mk 170 0 0 false ∧
    escResetDemoB.buf.GetCursorPosition ≠ escResetDemoA.buf.GetCursorPosition := by
  refine ⟨?_, ?_, ?_, ?_, ?_, ?_⟩ <;> decide

/-- C6 amended: from the Ground state, ESC c clears the screen (every
visible cell default, cursor at the origin), resets the graphic state to
defaults and returns to Ground, but leaves the saved-cursor slot exactly
as it was — a subsequent ESC 8 restores the pre-reset saved state rather
than being a no-op. -/
theorem escC_hard_reset (t : Term) (hstate : t.pstate = PState.normal) :
    (∀ y, y < (t.Parse [0x1B, 99]).buf.height →
      ∀ x, x < (t.Parse [0x1B, 99]).buf.width →
        (t.Parse [0x1B, 99]).buf.readCell y x = blankCell) ∧
    (t.Parse [0x1B, 99]).buf.cursorX = 0 ∧
    (t.Parse [0x1B, 99]).buf.cursorY = 0 ∧
    (t.Parse [0x1B, 99]).currentFG = defaultColor ∧
    (t.Parse [0x1B, 99]).currentBG = defaultColor ∧
    (t.Parse [0x1B, 99]).currentAttrs = noAttrs ∧
    (t.Parse [0x1B, 99]).pstate = PState.normal ∧
    (t.Parse [0x1B, 99]).savedCursor = t.savedCursor := by
  have e1 : t.parseByte 0x1B =
      { t with pstate := PState.escape, escapeBuffer := [] } := by
    unfold Term.parseByte Term.handleNormal
    rw [hstate]
    rfl
  have e : t.Parse [0x1B, 99] =
      { t with buf := t.buf.Clear, currentFG := defaultColor,
               currentBG := defaultColor, currentAttrs := noAttrs,
               pstate := PState.normal, escapeBuffer := [] } := by
    show (t.parseByte 0x1B).parseByte 99 = _
    rw [e1]
    rfl
  rw [e]
  obtain ⟨c1, c2, c3, c4⟩ := clear_fields t.buf
  refine ⟨?_, c3, c4, rfl, rfl, rfl, rfl, rfl⟩
  intro y hy x hx
  rw [c2] at hy
  rw [c1] at hx
  exact clear_readCell t.buf y x hy hx

/-- C6 witness: a fresh 4x2 terminal fed ESC c has a blank top-left cell,
cursor at the origin and an untouched (empty) saved slot. -/
theorem escC_hard_reset_witness :
    (newTerm 4 2).pstate = PState.normal ∧
    0 < ((newTerm 4 2).Parse [0x1B, 99]).buf.height ∧
    0 < ((newTerm 4 2).Parse [0x1B, 99]).buf.width ∧
    ((newTerm 4 2).Parse [0x1B, 99]).buf.readCell 0 0 = blankCell ∧
    ((newTerm 4 2).Parse [0x1B, 99]).savedCursor = (newTerm 4 2).savedCursor :=
  ⟨by decide, by decide, by decide,
    (escC_hard_reset (newTerm 4 2) (by decide)).1 0 (by decide) 0 (by decide),
    (escC_hard_reset (newTerm 4 2) (by decide)).2.2.2.2.2.2.2⟩

/-! ## C4: restart clears the grid but not the scrollback -/

theorem clearFold_scrollback :
    ∀ (l : List Nat) (sb : ScreenBuffer),
      (l.foldl (fun b y => b.writeRow y (blankify b.width (b.rowVal y))) sb).scrollback
          = sb.scrollback ∧
      (l.foldl (fun b y => b.writeRow y (blankify b.width (b.rowVal y))) sb).scrollbackStart
          = sb.scrollbackStart ∧
      (l.foldl (fun b y => b.writeRow y (blankify b.width (b.rowVal y))) sb).maxScrollback
          = sb.maxScrollback
  | [], _ => ⟨rfl, rfl, rfl⟩
  | y :: rest, sb => clearFold_scrollback rest _

theorem clear_scrollback_fields (sb : ScreenBuffer) :
    (sb.Clear).scrollback = sb.scrollback ∧
    (sb.Clear).scrollbackStart = sb.scrollbackStart ∧
    (sb.Clear).maxScrollback = sb.maxScrollback := by
  unfold ScreenBuffer.Clear ScreenBuffer.ClearRawData
  dsimp only
  exact clearFold_scrollback (List.range sb.height) sb

theorem clear_GetScrollback (sb : ScreenBuffer) :
    (sb.Clear).GetScrollback = sb.GetScrollback := by
  obtain ⟨e1, e2, e3⟩ := clear_scrollback_fields sb
  unfold ScreenBuffer.GetScrollback
  rw [e1, e2, e3]

/-- C4 counterexample: restarting a session whose screen has scrolled one
line leaves that line in the scrollback — the scrollback is not cleared,
contradicting "clears Screen including scrollback / scrollback is empty". -/
theorem restart_keeps_scrollback :
    (scrolledSession.Restart).state = SessionState.active ∧
    (scrolledSession.Restart).id = scrolledSession.id ∧
    (scrolledSession.Restart).term.buf.GetScrollback.length = 1 ∧
    (scrolledSession.Restart).term.buf.GetScrollback ≠ [] := by
  refine ⟨?_, ?_, ?_, ?_⟩ <;> decide

/-- C4 amended: after a successful restart every visible grid cell is the
default cell, the cursor is at (0,0), the raw-byte log is empty, the state
is Active, and the identifier and launch spec are preserved — but the
scrollback buffer is retained unchanged rather than cleared. -/
theorem restart_clears_screen_keeps_scrollback (s : Session) :
    (∀ y, y < (s.Restart).term.buf.height →
      ∀ x, x < (s.Restart).term.buf.width →
        (s.Restart).term.buf.readCell y x = blankCell) ∧
    (s.Restart).term.buf.cursorX = 0 ∧
    (s.Restart).term.buf.cursorY = 0 ∧
    (s.Restart).term.buf.rawData = [] ∧
    (s.Restart).state = SessionState.active ∧
    (s.Restart).id = s.id ∧ (s.Restart).command = s.command ∧
    (s.Restart).args = s.args ∧
    (s.Restart).term.buf.GetScrollback = s.term.buf.GetScrollback := by
  obtain ⟨c1, c2, c3, c4⟩ := clear_fields s.term.buf
  refine ⟨?_, c3, c4, rfl, rfl, rfl, rfl, rfl, clear_GetScrollback s.term.buf⟩
  intro y hy x hx
  have hy2 : y < s.term.buf.Clear.height := hy
  have hx2 : x < s.term.buf.Clear.width := hx
  rw [c2] at hy2
  rw [c1] at hx2
  exact clear_readCell s.term.buf y x hy2 hx2

/-- C4 witness: the scrolled session restarted — top-left cell blank,
scrollback retained. -/
theorem restart_clears_screen_keeps_scrollback_witness :
    0 < (scrolledSession.Restart).term.buf.height ∧
    0 < (scrolledSession.Restart).term.buf.width ∧
    (scrolledSession.Restart).term.buf.readCell 0 0 = blankCell ∧
    (scrolledSession.Restart).term.buf.GetScrollback =
      scrolledSession.term.buf.GetScrollback :=
  ⟨by decide, by decide,
    (restart_clears_screen_keeps_scrollback scrolledSession).1 0 (by decide)
      0 (by decide),
    (restart_clears_screen_keeps_scrollback scrolledSession).2.2.2.2.2.2.2.2⟩

/-! ## C1: snapshots require the Active state -/

/-- C1 counterexample: a stopped session's snapshot does not succeed — it
returns the not-active error, contradicting "succeeds in any lifecycle
state". -/
theorem getScreen_rejects_stopped :
    stoppedSession.state = SessionState.stopped ∧
    stoppedSession.GetScreen "plain" = Except.error "session is not active" ∧
    (stoppedSession.GetScreen "plain").isOk = false :=
  ⟨by decide, rfl, rfl⟩

/-- C1 amended: snapshot succeeds exactly in the Active state, returning
Screen.render(format) — with an unknown format falling back to the plain
rendering — while the cursor coordinates are served in any state; in
Stopped or Error the snapshot fails with the not-active error. -/
theorem getScreen_spec (s : Session) (format : String) :
    (s.state = SessionState.active →
      s.GetScreen format = Except.ok (s.term.buf.Render format)) ∧
    (s.state ≠ SessionState.active →
      s.GetScreen format = Except.error "session is not active") ∧
    s.GetCursorPosition = (s.term.buf.cursorX, s.term.buf.cursorY) ∧
    (format ∉ (["plain", "raw", "ansi", "scrollback", "passthrough"] : List String) →
      s.term.buf.Render format = s.term.buf.renderPlain) := by
  refine ⟨?_, ?_, rfl, ?_⟩
  · intro h
    unfold Session.GetScreen
    rw [if_neg (by simp [h])]
  · intro h
    unfold Session.GetScreen
    rw [if_pos h]
  · intro hm
    simp only [List.mem_cons, List.not_mem_nil, or_false, not_or] at hm
    obtain ⟨m1, m2, m3, m4, m5⟩ := hm
    unfold ScreenBuffer.Render
    rw [if_neg m1, if_neg m2, if_neg m3, if_neg m4, if_neg m5]

/-- C1 witness: a fresh active session rendered with an unknown format
succeeds and falls back to the plain rendering. -/
theorem getScreen_spec_witness :
    (NewSessionModel "id-3" "prog" []).state = SessionState.active ∧
    "bogus" ∉ (["plain", "raw", "ansi", "scrollback", "passthrough"] : List String) ∧
    (NewSessionModel "id-3" "prog" []).GetScreen "bogus" =
      Except.ok ((NewSessionModel "id-3" "prog" []).term.buf.Render "bogus") ∧
    (NewSessionModel "id-3" "prog" []).term.buf.Render "bogus" =
      (NewSessionModel "id-3" "prog" []).term.buf.renderPlain :=
  ⟨by decide, by decide,
    (getScreen_spec (NewSessionModel "id-3" "prog" []) "bogus").1 (by decide),
    (getScreen_spec (NewSessionModel "id-3" "prog" []) "bogus").2.2.2 (by decide)⟩

/-! ## A generic preservation sweep over the parser

`parseByte_rel` shows that one parser step relates the new screen to the
old one by R, for any reflexive transitive relation R that tolerates every
primitive screen operation the parser performs. It is instantiated below
for the raw-log evolution (C3) and the grid-shape invariant (C10). -/

theorem foldl_rel {α : Type} (R : ScreenBuffer → ScreenBuffer → Prop)
    (hrefl : ∀ sb, R sb sb)
    (htrans : ∀ a b c, R a b → R b c → R a c)
    (f : ScreenBuffer → α → ScreenBuffer) (hf : ∀ b x, R (f b x) b) :
    ∀ (l : List α) (b : ScreenBuffer), R (l.foldl f b) b
  | [], b => hrefl b
  | x :: xs, b => htrans _ _ _ (foldl_rel R hrefl htrans f hf xs (f b x)) (hf b x)

theorem parseByte_rel (R : ScreenBuffer → ScreenBuffer → Prop)
    (hrefl : ∀ sb, R sb sb)
    (htrans : ∀ a b c, R a b → R b c → R a c)
    (hmove : ∀ sb x y, R (sb.MoveCursor x y) sb)
    (hset : ∀ sb x y r fg bg a, R (sb.SetCell x y r fg bg a) sb)
    (hclearline : ∀ sb y, R (sb.ClearLine y) sb)
    (hclear : ∀ sb, R sb.Clear sb)
    (hup : ∀ sb, R sb.ScrollUp sb)
    (hdown : ∀ sb, R sb.ScrollDown sb)
    (hil : ∀ sb y n, R (sb.InsertLines y n) sb)
    (hdl : ∀ sb y n, R (sb.DeleteLines y n) sb)
    (hic : ∀ sb x y n, R (sb.InsertChars x y n) sb)
    (hdc : ∀ sb x y n, R (sb.DeleteChars x y n) sb)
    (hcur : ∀ sb x y, R { sb with cursorX := x, cursorY := y } sb)
    (t : Term) (b : Nat) : R (t.parseByte b).buf t.buf := by
  have hlf : ∀ sb, R (bufLineFeed sb) sb := by
    intro sb
    unfold bufLineFeed
    dsimp only
    split_ifs with hc
    · exact htrans _ _ _ (htrans _ _ _ (hcur ..) (hup ..)) (hcur ..)
    · exact hcur ..
  have hpc : ∀ sb ch fg bg attrs, R (putChar sb ch fg bg attrs) sb := by
    intro sb ch fg bg attrs
    unfold putChar
    dsimp only
    split_ifs with hc1 hc2
    · exact htrans _ _ _ (htrans _ _ _ (hcur ..) (hup ..))
        (htrans _ _ _ (hcur ..) (htrans _ _ _ (hcur ..) (hset ..)))
    · exact htrans _ _ _ (hcur ..) (htrans _ _ _ (hcur ..) (hset ..))
    · exact htrans _ _ _ (hcur ..) (hset ..)
  have hrestore : ∀ t2 : Term, R t2.restoreCursor.buf t2.buf := by
    intro t2
    unfold Term.restoreCursor
    split
    · exact hrefl _
    · exact hmove ..
  unfold Term.parseByte
  split
  · show R (t.handleNormal b).buf t.buf
    unfold Term.handleNormal
    split_ifs
    · exact hrefl _
    · exact hmove ..
    · exact hlf _
    · exact hmove ..
    · rw [withBuf_buf]
      split
      · exact hmove ..
      · exact hrefl _
    · exact hpc ..
    · exact hrefl _
  · show R (t.handleEscape b).buf t.buf
    by_cases e1 : b = 91
    · subst e1; exact hrefl _
    by_cases e2 : b = 93
    · subst e2; exact hrefl _
    by_cases e3 : b = 80
    · subst e3; exact hrefl _
    by_cases e4a : b = 40
    · subst e4a; exact hrefl _
    by_cases e4b : b = 41
    · subst e4b; exact hrefl _
    by_cases e4c : b = 42
    · subst e4c; exact hrefl _
    by_cases e4d : b = 43
    · subst e4d; exact hrefl _
    by_cases e5 : b = 99
    · subst e5; exact hclear _
    by_cases e6 : b = 68
    · subst e6; exact hlf _
    by_cases e7 : b = 77
    · subst e7
      show R (if 0 < t.buf.cursorY then
        { t.buf with cursorY := t.buf.cursorY - 1 } else t.buf.ScrollDown) t.buf
      split_ifs with hc
      · exact hcur ..
      · exact hdown ..
    by_cases e8 : b = 69
    · subst e8
      show R (bufLineFeed { t.buf with cursorX := 0 }) t.buf
      exact htrans _ _ _ (hlf _) (hcur ..)
    by_cases e9 : b = 55
    · subst e9; exact hrefl _
    by_cases e10 : b = 56
    · subst e10; exact hrestore _
    unfold Term.handleEscape
    rw [if_neg e1, if_neg e2, if_neg e3,
      if_neg (show ¬(b = 40 ∨ b = 41 ∨ b = 42 ∨ b = 43) by omega),
      if_neg e5, if_neg e6, if_neg e7, if_neg e8, if_neg e9, if_neg e10]
    exact hrefl _
  · show R (t.handleCSI b).buf t.buf
    by_cases ep : 0x20 ≤ b ∧ b ≤ 0x3F
    · unfold Term.handleCSI
      rw [if_pos ep]
      exact hrefl _
    by_cases e1 : b = 65
    · subst e1; exact hmove ..
    by_cases e2 : b = 66
    · subst e2; exact hmove ..
    by_cases e3 : b = 67
    · subst e3; exact hmove ..
    by_cases e4 : b = 68
    · subst e4; exact hmove ..
    by_cases e5a : b = 72
    · subst e5a; exact hmove ..
    by_cases e5b : b = 102
    · subst e5b; exact hmove ..
    by_cases e6 : b = 74
    · subst e6
      show R (Term.buf
        (if (parseCSIParams t.escapeBuffer).headD 0 = 0 then
          t.withBuf fun sb =>
            (intRange (sb.cursorY + 1) sb.height).foldl
              (fun bb y => bb.ClearLine y) (eraseRight sb t.currentFG t.currentBG)
        else if (parseCSIParams t.escapeBuffer).headD 0 = 1 then
          t.withBuf fun sb =>
            eraseLeft ((intRange 0 sb.cursorY).foldl (fun bb y => bb.ClearLine y) sb)
              t.currentFG t.currentBG
        else if (parseCSIParams t.escapeBuffer).headD 0 = 2 then
          t.withBuf ScreenBuffer.Clear
        else t)) t.buf
      rw [apply_ite Term.buf, apply_ite Term.buf, apply_ite Term.buf]
      split_ifs
      · exact htrans _ _ _
          (foldl_rel R hrefl htrans _ (fun bb y => hclearline ..) _ _)
          (foldl_rel R hrefl htrans _ (fun bb y => hset ..) _ _)
      · exact htrans _ _ _
          (foldl_rel R hrefl htrans _ (fun bb y => hset ..) _ _)
          (foldl_rel R hrefl htrans _ (fun bb y => hclearline ..) _ _)
      · exact hclear _
      · exact hrefl _
    by_cases e7 : b = 75
    · subst e7
      show R (Term.buf
        (if (parseCSIParams t.escapeBuffer).headD 0 = 0 then
          t.withBuf fun sb => eraseRight sb t.currentFG t.currentBG
        else if (parseCSIParams t.escapeBuffer).headD 0 = 1 then
          t.withBuf fun sb => eraseLeft sb t.currentFG t.currentBG
        else if (parseCSIParams t.escapeBuffer).headD 0 = 2 then
          t.withBuf fun sb => sb.ClearLine sb.cursorY
        else t)) t.buf
      rw [apply_ite Term.buf, apply_ite Term.buf, apply_ite Term.buf]
      split_ifs
      · exact foldl_rel R hrefl htrans _ (fun bb y => hset ..) _ _
      · exact foldl_rel R hrefl htrans _ (fun bb y => hset ..) _ _
      · exact hclearline ..
      · exact hrefl _
    by_cases e8 : b = 109
    · subst e8; exact hrefl _
    by_cases e9 : b = 115
    · subst e9; exact hrefl _
    by_cases e10 : b = 117
    · subst e10; exact hrestore _
    by_cases e11 : b = 76
    · subst e11; exact hil ..
    by_cases e12 : b = 77
    · subst e12; exact hdl ..
    by_cases e13 : b = 80
    · subst e13; exact hdc ..
    by_cases e14 : b = 64
    · subst e14; exact hic ..
    by_cases e15 : b = 88
    · subst e15
      exact foldl_rel R hrefl htrans _ (fun bb i => hset ..) _ _
    by_cases e16 : b = 71
    · subst e16; exact hmove ..
    by_cases e17 : b = 100
    · subst e17; exact hmove ..
    unfold Term.handleCSI
    rw [if_neg ep]
    dsimp only
    rw [if_neg e1, if_neg e2, if_neg e3, if_neg e4,
      if_neg (show ¬(b = 72 ∨ b = 102) by omega), if_neg e6, if_neg e7,
      if_neg e8, if_neg e9, if_neg e10, if_neg e11, if_neg e12, if_neg e13,
      if_neg e14, if_neg e15, if_neg e16, if_neg e17]
    exact hrefl _
  · show R (t.handleOSC b).buf t.buf
    rw [handleOSC_buf]
    exact hrefl _
  · show R (t.handleDCS b).buf t.buf
    rw [handleDCS_buf]
    exact hrefl _
  · show R (t.handleCharset b).buf t.buf
    exact hrefl _

theorem parse_rel (R : ScreenBuffer → ScreenBuffer → Prop)
    (hrefl : ∀ sb, R sb sb)
    (htrans : ∀ a b c, R a b → R b c → R a c)
    (hstep : ∀ (t : Term) (b : Nat), R (t.parseByte b).buf t.buf) :
    ∀ (data : List Nat) (t : Term), R ((t.Parse data).buf) t.buf
  | [], t => hrefl t.buf
  | b :: rest, t =>
    htrans _ _ _ (parse_rel R hrefl htrans hstep rest (t.parseByte b))
      (hstep t b)


/-! ## C3: the raw-byte log -/

theorem rawEvo_refl (sb : ScreenBuffer) : RawEvo sb sb := ⟨rfl, Or.inl rfl⟩

theorem rawEvo_trans (a b c : ScreenBuffer) (h1 : RawEvo a b)
    (h2 : RawEvo b c) : RawEvo a c := by
  obtain ⟨m1, e1⟩ := h1
  obtain ⟨m2, e2⟩ := h2
  refine ⟨m1.trans m2, ?_⟩
  rcases e1 with e1 | e1
  · rcases e2 with e2 | e2
    · exact Or.inl (e1.trans e2)
    · exact Or.inr (e1.trans e2)
  · exact Or.inr e1

theorem writeRow_raw (sb : ScreenBuffer) (y : Nat) (row : List Cell) :
    RawEvo (sb.writeRow y row) sb := ⟨rfl, Or.inl rfl⟩

theorem clear_raw_fields (sb : ScreenBuffer) :
    (sb.Clear).rawData = [] ∧
    (sb.Clear).maxRawDataSize = sb.maxRawDataSize := by
  refine ⟨rfl, ?_⟩
  exact foldl_rel (fun a b => a.maxRawDataSize = b.maxRawDataSize)
    (fun _ => rfl) (fun a b c h1 h2 => h1.trans h2)
    (fun b y => b.writeRow y (blankify b.width (b.rowVal y)))
    (fun b x => rfl) (List.range sb.height) sb

/-- One parser step never touches the raw-log cap field, and either keeps
the log bytes verbatim or (on a screen clear) empties them. -/
theorem parseByte_raw (t : Term) (b : Nat) :
    RawEvo (t.parseByte b).buf t.buf := by
  have hadd : ∀ (sb : ScreenBuffer) line, RawEvo (sb.addToScrollback line) sb := by
    intro sb line
    unfold ScreenBuffer.addToScrollback
    split <;> exact ⟨rfl, Or.inl rfl⟩
  refine parseByte_rel RawEvo rawEvo_refl rawEvo_trans
    ?_ ?_ ?_ ?_ ?_ ?_ ?_ ?_ ?_ ?_ ?_ t b
  · exact fun sb x y => ⟨rfl, Or.inl rfl⟩
  · intro sb x y r fg bg a
    unfold ScreenBuffer.SetCell
    split <;> exact ⟨rfl, Or.inl rfl⟩
  · intro sb y
    unfold ScreenBuffer.ClearLine
    split <;> exact ⟨rfl, Or.inl rfl⟩
  · intro sb
    obtain ⟨e1, e2⟩ := clear_raw_fields sb
    exact ⟨e2, Or.inr e1⟩
  · intro sb
    unfold ScreenBuffer.ScrollUp
    exact rawEvo_trans _ _ _ ⟨rfl, Or.inl rfl⟩ (hadd ..)
  · exact fun sb => ⟨rfl, Or.inl rfl⟩
  · intro sb y n
    unfold ScreenBuffer.InsertLines
    split
    · exact rawEvo_refl sb
    · exact rawEvo_trans _ _ _
        (foldl_rel RawEvo rawEvo_refl rawEvo_trans _
          (fun b x => writeRow_raw ..) _ _)
        ⟨rfl, Or.inl rfl⟩
  · intro sb y n
    unfold ScreenBuffer.DeleteLines
    split
    · exact rawEvo_refl sb
    · exact rawEvo_trans _ _ _
        (foldl_rel RawEvo rawEvo_refl rawEvo_trans _
          (fun b x => writeRow_raw ..) _ _)
        ⟨rfl, Or.inl rfl⟩
  · intro sb x y n
    unfold ScreenBuffer.InsertChars
    split
    · exact rawEvo_refl sb
    · exact ⟨rfl, Or.inl rfl⟩
  · intro sb x y n
    unfold ScreenBuffer.DeleteChars
    split
    · exact rawEvo_refl sb
    · exact ⟨rfl, Or.inl rfl⟩
  · exact fun sb x y => ⟨rfl, Or.inl rfl⟩

theorem parse_raw (data : List Nat) (t : Term) :
    RawEvo (t.Parse data).buf t.buf :=
  parse_rel RawEvo rawEvo_refl rawEvo_trans parseByte_raw data t

theorem storeRawData_rawData_of_lt {sb : ScreenBuffer} {d : List Nat}
    (h : sb.maxRawDataSize < (sb.rawData ++ d).length) :
    (sb.storeRawData d).rawData =
      (sb.rawData ++ d).drop (sb.maxRawDataSize / 4) := by
  simp only [ScreenBuffer.storeRawData]
  rw [if_pos h]

theorem storeRawData_rawData_of_le {sb : ScreenBuffer} {d : List Nat}
    (h : ¬ sb.maxRawDataSize < (sb.rawData ++ d).length) :
    (sb.storeRawData d).rawData = sb.rawData ++ d := by
  simp only [ScreenBuffer.storeRawData]
  rw [if_neg h]

theorem storeRawData_max (sb : ScreenBuffer) (d : List Nat) :
    (sb.storeRawData d).maxRawDataSize = sb.maxRawDataSize := by
  simp only [ScreenBuffer.storeRawData]
  split <;> rfl

theorem storeRawData_cap {sb : ScreenBuffer} {d : List Nat}
    (hmax : sb.maxRawDataSize = 1048576)
    (hlen : sb.rawData.length ≤ 1048576)
    (hd : d.length ≤ 262144) :
    (sb.storeRawData d).rawData.length ≤ 1048576 := by
  by_cases hc : sb.maxRawDataSize < (sb.rawData ++ d).length
  · rw [storeRawData_rawData_of_lt hc, List.length_drop, List.length_append,
      hmax]
    have h4 : (1048576 : Nat) / 4 = 262144 := by norm_num
    rw [h4]
    omega
  · rw [storeRawData_rawData_of_le hc, List.length_append]
    rw [hmax, List.length_append] at hc
    omega

theorem storeRawData_suffix {sb : ScreenBuffer} {d S : List Nat}
    (h : sb.rawData <:+ S) :
    (sb.storeRawData d).rawData <:+ S ++ d := by
  have happ : sb.rawData ++ d <:+ S ++ d := by
    obtain ⟨u, hu⟩ := h
    exact ⟨u, by rw [← List.append_assoc, hu]⟩
  by_cases hc : sb.maxRawDataSize < (sb.rawData ++ d).length
  · rw [storeRawData_rawData_of_lt hc]
    exact (List.drop_suffix _ _).trans happ
  · rw [storeRawData_rawData_of_le hc]
    exact happ

theorem writeAll_raw :
    ∀ (chunks : List (List Nat)) (t : Term) (S : List Nat),
      t.buf.maxRawDataSize = 1048576 →
      t.buf.rawData.length ≤ 1048576 →
      t.buf.rawData <:+ S →
      (∀ c ∈ chunks, c.length ≤ 262144) →
      (chunks.foldl Term.Write t).buf.maxRawDataSize = 1048576 ∧
      (chunks.foldl Term.Write t).buf.rawData.length ≤ 1048576 ∧
      (chunks.foldl Term.Write t).buf.rawData <:+ S ++ chunks.flatten
  | [], t, S, h1, h2, h3, _ => ⟨h1, h2, by simpa using h3⟩
  | c :: rest, t, S, h1, h2, h3, hc => by
    have hs1 : (t.buf.storeRawData c).maxRawDataSize = 1048576 :=
      (storeRawData_max ..).trans h1
    have hs2 : (t.buf.storeRawData c).rawData.length ≤ 1048576 :=
      storeRawData_cap h1 h2 (hc c (List.mem_cons_self c rest))
    have hs3 : (t.buf.storeRawData c).rawData <:+ S ++ c :=
      storeRawData_suffix h3
    have hp := parse_raw c { t with buf := t.buf.storeRawData c }
    have hq1 : ((t.Write c).buf).maxRawDataSize = 1048576 := hp.1.trans hs1
    have hq2 : ((t.Write c).buf).rawData.length ≤ 1048576 := by
      rcases hp.2 with e | e
      · rw [show (t.Write c).buf.rawData = _ from e]; exact hs2
      · rw [show (t.Write c).buf.rawData = _ from e]; simp
    have hq3 : ((t.Write c).buf).rawData <:+ S ++ c := by
      rcases hp.2 with e | e
      · rw [show (t.Write c).buf.rawData = _ from e]; exact hs3
      · rw [show (t.Write c).buf.rawData = _ from e]; exact List.nil_suffix
    have hrec := writeAll_raw rest (t.Write c) (S ++ c) hq1 hq2 hq3
      (fun x hx => hc x (List.mem_cons_of_mem c hx))
    refine ⟨hrec.1, hrec.2.1, ?_⟩
    rw [List.flatten_cons, ← List.append_assoc]
    exact hrec.2.2

theorem writeAll_suffix :
    ∀ (chunks : List (List Nat)) (t : Term) (S : List Nat),
      t.buf.rawData <:+ S →
      (chunks.foldl Term.Write t).buf.rawData <:+ S ++ chunks.flatten
  | [], t, S, h3 => by simpa using h3
  | c :: rest, t, S, h3 => by
    have hs3 : (t.buf.storeRawData c).rawData <:+ S ++ c :=
      storeRawData_suffix h3
    have hp := parse_raw c { t with buf := t.buf.storeRawData c }
    have hq3 : ((t.Write c).buf).rawData <:+ S ++ c := by
      rcases hp.2 with e | e
      · rw [show (t.Write c).buf.rawData = _ from e]; exact hs3
      · rw [show (t.Write c).buf.rawData = _ from e]; exact List.nil_suffix
    have hrec := writeAll_suffix rest (t.Write c) (S ++ c) hq3
    rw [List.flatten_cons, ← List.append_assoc]
    exact hrec

/-- C3 counterexample: a single write larger than 1.25 MiB leaves more than
1 MiB in the raw log even after the trim, because the trim only drops a
fixed quarter of the cap (262144 bytes), not enough to get back under it. -/
theorem rawLog_cap_exceeded :
    (NewScreenBuffer 1 1).maxRawDataSize = 1048576 ∧
    1048576 <
      (((NewScreenBuffer 1 1).storeRawData
        (List.replicate 1310721 65)).rawData).length := by
  refine ⟨rfl, ?_⟩
  have hc : (NewScreenBuffer 1 1).maxRawDataSize <
      ((NewScreenBuffer 1 1).rawData ++ List.replicate 1310721 65).length := by
    show (1024 * 1024 : Nat) < (([] : List Nat) ++ List.replicate 1310721 65).length
    norm_num
  rw [storeRawData_rawData_of_lt hc, List.length_drop, List.length_append]
  have e1 : (NewScreenBuffer 1 1).rawData = ([] : List Nat) := rfl
  have e2 : (NewScreenBuffer 1 1).maxRawDataSize = 1048576 := rfl
  rw [e1, e2, List.length_nil, List.length_replicate]
  norm_num

/-- C3 (amended): starting from an empty raw log with the 1 MiB cap, the cap
is respected after every sequence of writes provided each chunk is at most
cap/4 = 262144 bytes (the counterexample shows a larger chunk can overflow
it); and unconditionally, after any writes whatsoever, the log is a suffix
of the concatenated input stream, so the most recent bytes are retained. -/
theorem rawLog_cap_and_suffix (chunks : List (List Nat)) (t : Term)
    (h0 : t.buf.rawData = [])
    (hmax : t.buf.maxRawDataSize = 1048576) :
    ((∀ c ∈ chunks, c.length ≤ 262144) →
      (chunks.foldl Term.Write t).buf.rawData.length ≤ 1048576) ∧
    (chunks.foldl Term.Write t).buf.rawData <:+ chunks.flatten := by
  constructor
  · intro hbound
    have hsuf : t.buf.rawData <:+ ([] : List Nat) := by
      rw [h0]
    have h2 : t.buf.rawData.length ≤ 1048576 := by
      rw [h0]; simp
    exact (writeAll_raw chunks t [] hmax h2 hsuf hbound).2.1
  · have hsuf : t.buf.rawData <:+ ([] : List Nat) := by
      rw [h0]
    have h := writeAll_suffix chunks t [] hsuf
    simpa using h

/-- Witness for rawLog_cap_and_suffix: three small writes, the middle one a
hard reset that empties the log; the final log still satisfies the cap and
is a suffix of the whole input stream. -/
theorem rawLog_cap_and_suffix_witness :
    (newTerm 2 2).buf.rawData = [] ∧
    (newTerm 2 2).buf.maxRawDataSize = 1048576 ∧
    (([strBytes "hi", [27, 99], strBytes "yo"].foldl Term.Write
        (newTerm 2 2)).buf.rawData.length ≤ 1048576 ∧
      ([strBytes "hi", [27, 99], strBytes "yo"].foldl Term.Write
        (newTerm 2 2)).buf.rawData <:+
        ([strBytes "hi", [27, 99], strBytes "yo"] : List (List Nat)).flatten) :=
  ⟨rfl, rfl,
    (rawLog_cap_and_suffix [strBytes "hi", [27, 99], strBytes "yo"]
      (newTerm 2 2) rfl rfl).1 (by decide),
    (rawLog_cap_and_suffix [strBytes "hi", [27, 99], strBytes "yo"]
      (newTerm 2 2) rfl rfl).2⟩

/-! ## C10: grid-shape safety of the parser -/

theorem writeRow_shape {sb : ScreenBuffer} {y : Nat} {row : List Cell}
    (h : ShapeWF sb) (hrow : row.length = (sb.rowVal y).length) :
    ShapeWF (sb.writeRow y row) := by
  obtain ⟨h1, h2⟩ := h
  refine ⟨h1, ?_⟩
  intro p hp
  show ((sb.heap.set (sb.rowPtr y) row).getD p []).length = sb.width
  rw [List.getD_eq_getElem?_getD, List.getElem?_set]
  by_cases he : sb.rowPtr y = p
  · by_cases hlt : sb.rowPtr y < sb.heap.length
    · rw [if_pos he, if_pos hlt]
      have h2p := h2 p hp
      rw [List.getD_eq_getElem?_getD] at h2p
      have hval : sb.rowVal y = (sb.heap[p]?).getD [] := by
        unfold ScreenBuffer.rowVal
        rw [List.getD_eq_getElem?_getD, he]
      rw [hval] at hrow
      show row.length = sb.width
      rw [hrow]
      exact h2p
    · rw [if_pos he, if_neg hlt]
      have hge : sb.heap.length ≤ p := by omega
      have h2p := h2 p hp
      rw [List.getD_eq_getElem?_getD, List.getElem?_eq_none hge] at h2p
      exact h2p
  · rw [if_neg he]
    have h2p := h2 p hp
    rw [List.getD_eq_getElem?_getD] at h2p
    exact h2p

theorem rowPtr_mem {sb : ScreenBuffer} {y : Nat} (hs : ShapeWF sb)
    (hy : y < sb.height) : sb.rowPtr y ∈ sb.rows := by
  obtain ⟨h1, _⟩ := hs
  have hy2 : y < sb.rows.length := by omega
  unfold ScreenBuffer.rowPtr
  rw [List.getD_eq_getElem?_getD, List.getElem?_eq_getElem hy2]
  exact List.getElem_mem hy2

theorem rowVal_length_of_shape {sb : ScreenBuffer} (hs : ShapeWF sb)
    {y : Nat} (hy : y < sb.height) : (sb.rowVal y).length = sb.width :=
  hs.2 (sb.rowPtr y) (rowPtr_mem hs hy)

theorem mem_mapIdx {α β : Type} {f : Nat → α → β} {l : List α} {q : β}
    (h : q ∈ l.mapIdx f) :
    ∃ i, ∃ hi : i < l.length, q = f i (l.get ⟨i, hi⟩) := by
  rw [List.mem_iff_get] at h
  obtain ⟨n, hn⟩ := h
  have hlen : (l.mapIdx f).length = l.length := by simp
  refine ⟨n.1, by omega, ?_⟩
  rw [← hn, List.get_mapIdx]

theorem getD_append_len {heap : List (List Cell)} {w : Nat} {p : Nat}
    (row : List Cell) (hrow : row.length = w)
    (hp : (heap.getD p []).length = w) :
    ((heap ++ [row]).getD p []).length = w := by
  rw [List.getD_eq_getElem?_getD] at hp ⊢
  by_cases hlt : p < heap.length
  · rw [List.getElem?_append, if_pos hlt]
    exact hp
  · by_cases heq : p = heap.length
    · subst heq
      rw [List.getElem?_concat_length]
      exact hrow
    · rw [List.getElem?_eq_none
        (by rw [List.length_append, List.length_singleton]; omega)]
      rw [List.getElem?_eq_none (by omega)] at hp
      exact hp

theorem addToScrollback_grid (sb : ScreenBuffer) (line : List Cell) :
    (sb.addToScrollback line).rows = sb.rows ∧
    (sb.addToScrollback line).heap = sb.heap ∧
    (sb.addToScrollback line).width = sb.width ∧
    (sb.addToScrollback line).height = sb.height := by
  unfold ScreenBuffer.addToScrollback
  split <;> exact ⟨rfl, rfl, rfl, rfl⟩

theorem push_row_shape {b : ScreenBuffer} (h : ShapeWF b) (hh : 1 ≤ b.height) :
    ShapeWF { b with
      rows := b.rows.drop 1 ++ [b.heap.length],
      heap := b.heap ++ [blankRow b.width] } := by
  obtain ⟨h1, h2⟩ := h
  constructor
  · show (b.rows.drop 1 ++ [b.heap.length]).length = b.height
    rw [List.length_append, List.length_drop, List.length_singleton]
    omega
  · intro p hp
    have hp2 : p ∈ b.rows.drop 1 ++ [b.heap.length] := hp
    show ((b.heap ++ [blankRow b.width]).getD p []).length = b.width
    rw [List.mem_append] at hp2
    rcases hp2 with hp2 | hp2
    · exact getD_append_len _ (by simp [blankRow])
        (h2 p (List.drop_subset _ _ hp2))
    · rw [List.mem_singleton] at hp2
      subst hp2
      rw [List.getD_eq_getElem?_getD, List.getElem?_concat_length]
      show (blankRow b.width).length = b.width
      simp [blankRow]

theorem scrollUp_shape {sb : ScreenBuffer} (h : ShapeWF sb)
    (hh : 1 ≤ sb.height) : ShapeWF sb.ScrollUp := by
  have hg := addToScrollback_grid sb (sb.rowVal 0)
  have h1 : ShapeWF (sb.addToScrollback (sb.rowVal 0)) := by
    unfold ShapeWF
    rw [hg.1, hg.2.1, hg.2.2.1, hg.2.2.2]
    exact h
  have hh1 : 1 ≤ (sb.addToScrollback (sb.rowVal 0)).height := by
    rw [hg.2.2.2]; exact hh
  exact push_row_shape h1 hh1

theorem scrollDown_shape {sb : ScreenBuffer} (h : ShapeWF sb)
    (hh : 1 ≤ sb.height) : ShapeWF sb.ScrollDown := by
  obtain ⟨h1, h2⟩ := h
  constructor
  · show (sb.heap.length :: sb.rows.take (sb.height - 1)).length = sb.height
    rw [List.length_cons, List.length_take]
    omega
  · intro p hp
    have hp2 : p ∈ sb.heap.length :: sb.rows.take (sb.height - 1) := hp
    show ((sb.heap ++ [blankRow sb.width]).getD p []).length = sb.width
    rw [List.mem_cons] at hp2
    rcases hp2 with hp2 | hp2
    · subst hp2
      rw [List.getD_eq_getElem?_getD, List.getElem?_concat_length]
      show (blankRow sb.width).length = sb.width
      simp [blankRow]
    · exact getD_append_len _ (by simp [blankRow])
        (h2 p (List.take_subset _ _ hp2))

theorem setCell_shape {sb : ScreenBuffer} (h : ShapeWF sb) (x y : Int)
    (r : Char) (fg bg : Color) (a : Attributes) :
    ShapeWF (sb.SetCell x y r fg bg a) := by
  unfold ScreenBuffer.SetCell
  split
  · exact h
  · refine writeRow_shape h ?_
    rw [List.length_set]

theorem clearLine_shape {sb : ScreenBuffer} (h : ShapeWF sb) (y : Int) :
    ShapeWF (sb.ClearLine y) := by
  unfold ScreenBuffer.ClearLine
  split
  · exact h
  · exact writeRow_shape h (blankify_length ..)

theorem clear_shape {sb : ScreenBuffer} (h : ShapeWF sb) :
    ShapeWF sb.Clear := by
  exact foldl_rel (fun a b => ShapeWF b → ShapeWF a)
    (fun _ q => q) (fun a b c f1 f2 q => f1 (f2 q))
    (fun b y => b.writeRow y (blankify b.width (b.rowVal y)))
    (fun b x hb => writeRow_shape hb (blankify_length ..))
    (List.range sb.height) sb h

theorem mapIdx_rows_shape {sb : ScreenBuffer} (h : ShapeWF sb)
    {g : Nat → Nat → Nat}
    (hg : ∀ i (hi : i < sb.rows.length), g i (sb.rows.get ⟨i, hi⟩) ∈ sb.rows) :
    ShapeWF { sb with rows := sb.rows.mapIdx g } := by
  obtain ⟨h1, h2⟩ := h
  constructor
  · show (sb.rows.mapIdx g).length = sb.height
    have hl : (sb.rows.mapIdx g).length = sb.rows.length := by simp
    rw [hl]
    exact h1
  · intro p hp
    have hp2 : p ∈ sb.rows.mapIdx g := hp
    show ((sb.heap).getD p []).length = sb.width
    obtain ⟨i, hi, he⟩ := mem_mapIdx hp2
    subst he
    exact h2 _ (hg i hi)

theorem getD_mem_of_lt {l : List Nat} {j : Nat} (hj : j < l.length) :
    l.getD j 0 ∈ l := by
  rw [List.getD_eq_getElem?_getD, List.getElem?_eq_getElem hj]
  exact List.getElem_mem hj

theorem insertLines_shape {sb : ScreenBuffer} (h : ShapeWF sb) (y n : Int) :
    ShapeWF (sb.InsertLines y n) := by
  unfold ScreenBuffer.InsertLines
  split
  · exact h
  · refine foldl_rel (fun a b => ShapeWF b → ShapeWF a)
      (fun _ q => q) (fun a b c f1 f2 q => f1 (f2 q)) _
      (fun b x hb => writeRow_shape hb (blankify_length ..)) _ _
      (mapIdx_rows_shape h ?_)
    intro i hi
    have h1 := h.1
    split <;> split <;>
      first
      | exact List.getElem_mem hi
      | exact getD_mem_of_lt (by omega)

theorem deleteLines_shape {sb : ScreenBuffer} (h : ShapeWF sb) (y n : Int) :
    ShapeWF (sb.DeleteLines y n) := by
  unfold ScreenBuffer.DeleteLines
  split
  · exact h
  · refine foldl_rel (fun a b => ShapeWF b → ShapeWF a)
      (fun _ q => q) (fun a b c f1 f2 q => f1 (f2 q)) _
      (fun b x hb => writeRow_shape hb (blankify_length ..)) _ _
      (mapIdx_rows_shape h ?_)
    intro i hi
    have h1 := h.1
    split <;> split <;>
      first
      | exact List.getElem_mem hi
      | exact getD_mem_of_lt (by omega)

theorem insertChars_shape {sb : ScreenBuffer} (h : ShapeWF sb) (x y n : Int) :
    ShapeWF (sb.InsertChars x y n) := by
  unfold ScreenBuffer.InsertChars
  split
  · exact h
  · refine writeRow_shape h ?_
    simp

theorem deleteChars_shape {sb : ScreenBuffer} (h : ShapeWF sb) (x y n : Int) :
    ShapeWF (sb.DeleteChars x y n) := by
  unfold ScreenBuffer.DeleteChars
  split
  · exact h
  · refine writeRow_shape h ?_
    simp

theorem shapeEvo_refl (sb : ScreenBuffer) : ShapeEvo sb sb :=
  ⟨rfl, rfl, fun q => q⟩

theorem shapeEvo_trans (a b c : ScreenBuffer) (h1 : ShapeEvo a b)
    (h2 : ShapeEvo b c) : ShapeEvo a c :=
  ⟨h1.1.trans h2.1, h1.2.1.trans h2.2.1, fun q => h1.2.2 (h2.2.2 q)⟩

theorem shapeEvo_mk {a b : ScreenBuffer} (hw : a.width = b.width)
    (hh : a.height = b.height) (hs : FullSWF b → ShapeWF a) : ShapeEvo a b := by
  refine ⟨hw, hh, fun q => ⟨hs q, ?_, ?_⟩⟩
  · rw [hw]; exact q.2.1
  · rw [hh]; exact q.2.2

/-- One parser step keeps the grid geometry and preserves the grid-shape
invariant. -/
theorem parseByte_shape (t : Term) (b : Nat) :
    ShapeEvo (t.parseByte b).buf t.buf := by
  refine parseByte_rel ShapeEvo shapeEvo_refl shapeEvo_trans
    ?_ ?_ ?_ ?_ ?_ ?_ ?_ ?_ ?_ ?_ ?_ t b
  · exact fun sb x y => shapeEvo_mk rfl rfl (fun q => q.1)
  · exact fun sb x y r fg bg a => shapeEvo_mk (setCell_geom ..).1
      (setCell_geom ..).2.1 (fun q => setCell_shape q.1 x y r fg bg a)
  · exact fun sb y => shapeEvo_mk (clearLine_geom ..).1
      (clearLine_geom ..).2.1 (fun q => clearLine_shape q.1 y)
  · exact fun sb => shapeEvo_mk (clear_fields sb).1
      (clear_fields sb).2.1 (fun q => clear_shape q.1)
  · exact fun sb => shapeEvo_mk (scrollUp_geom sb).1
      (scrollUp_geom sb).2.1 (fun q => scrollUp_shape q.1 q.2.2)
  · exact fun sb => shapeEvo_mk (scrollDown_geom sb).1
      (scrollDown_geom sb).2.1 (fun q => scrollDown_shape q.1 q.2.2)
  · exact fun sb y n => shapeEvo_mk (insertLines_geom ..).1
      (insertLines_geom ..).2.1 (fun q => insertLines_shape q.1 y n)
  · exact fun sb y n => shapeEvo_mk (deleteLines_geom ..).1
      (deleteLines_geom ..).2.1 (fun q => deleteLines_shape q.1 y n)
  · exact fun sb x y n => shapeEvo_mk (insertChars_geom ..).1
      (insertChars_geom ..).2.1 (fun q => insertChars_shape q.1 x y n)
  · exact fun sb x y n => shapeEvo_mk (deleteChars_geom ..).1
      (deleteChars_geom ..).2.1 (fun q => deleteChars_shape q.1 x y n)
  · exact fun sb x y => shapeEvo_mk rfl rfl (fun q => q.1)

theorem parse_shape (data : List Nat) (t : Term) :
    ShapeEvo (t.Parse data).buf t.buf :=
  parse_rel ShapeEvo shapeEvo_refl shapeEvo_trans parseByte_shape data t

/-- C10: the parser is total on arbitrary byte sequences by construction (it
is a structurally recursive fold of total step functions, including absent,
zero, negative or huge CSI parameters and truncated escape sequences), and
it never breaks the grid: starting from a well-formed screen of positive
geometry, after parsing any bytes the cursor is still in bounds, the grid
shape is intact (one row pointer per row, every referenced row of the
grid's width), and the geometry is unchanged, so every cell access the
screen operations perform stays within the bounds-checked grid. -/
theorem parse_total_safe (data : List Nat) (t : Term)
    (hc : CursorWF t.buf) (hs : ShapeWF t.buf) :
    CursorWF (t.Parse data).buf ∧ ShapeWF (t.Parse data).buf ∧
    (t.Parse data).buf.width = t.buf.width ∧
    (t.Parse data).buf.height = t.buf.height ∧
    ∀ y, y < (t.Parse data).buf.height →
      ((t.Parse data).buf.rowVal y).length = (t.Parse data).buf.width := by
  have hcw := parse_wf data t hc
  have hse := parse_shape data t
  have hfull : FullSWF (t.Parse data).buf := hse.2.2 ⟨hs, hc.1, hc.2.1⟩
  exact ⟨hcw, hfull.1, hse.1, hse.2.1,
    fun y hy => rowVal_length_of_shape hfull.1 hy⟩

/-- Witness for parse_total_safe: a 3x2 screen fed malformed input — a CSI
with huge parameters, a CSI with an unknown final byte, a bare escape with
an unknown successor, and a truncated CSI prefix — stays well-formed. -/
theorem parse_total_safe_witness :
    CursorWF (newTerm 3 2).buf ∧ ShapeWF (newTerm 3 2).buf ∧
    (CursorWF ((newTerm 3 2).Parse
        (strBytes "\x1b[4294967295;0H\x1b[999M\x1bQx" ++ [27, 91, 59])).buf ∧
      ShapeWF ((newTerm 3 2).Parse
        (strBytes "\x1b[4294967295;0H\x1b[999M\x1bQx" ++ [27, 91, 59])).buf ∧
      ((newTerm 3 2).Parse
        (strBytes "\x1b[4294967295;0H\x1b[999M\x1bQx" ++ [27, 91, 59])).buf.width =
        (newTerm 3 2).buf.width ∧
      ((newTerm 3 2).Parse
        (strBytes "\x1b[4294967295;0H\x1b[999M\x1bQx" ++ [27, 91, 59])).buf.height =
        (newTerm 3 2).buf.height ∧
      ∀ y, y < ((newTerm 3 2).Parse
          (strBytes "\x1b[4294967295;0H\x1b[999M\x1bQx" ++ [27, 91, 59])).buf.height →
        (((newTerm 3 2).Parse
          (strBytes "\x1b[4294967295;0H\x1b[999M\x1bQx" ++ [27, 91, 59])).buf.rowVal y).length =
          ((newTerm 3 2).Parse
            (strBytes "\x1b[4294967295;0H\x1b[999M\x1bQx" ++ [27, 91, 59])).buf.width) :=
  ⟨by decide, by decide,
    parse_total_safe (strBytes "\x1b[4294967295;0H\x1b[999M\x1bQx" ++ [27, 91, 59])
      (newTerm 3 2) (by decide) (by decide)⟩
